import Mathlib

/-!
Verification of the AAKARSH-AI chat-completion backend.

This file gives a shallow embedding, in Lean 4, of the multi-provider
generation dispatch, fallback and streaming pipeline of the repository:
the model catalog and dispatch of `llmService` (both orchestration
variants present in the source), the notice composer, the local safety
filter, the rule-based local generation paths, the Hugging Face error
handlers, the message-augmentation injections of the HTTP layer, and the
keyword intent detector.  JavaScript functions are translated into pure
Lean functions; a thrown exception is an `Except.error`; JavaScript's
dynamically typed prompt argument is modelled by `JSVal`.  External
network backends (OpenAI, Hugging Face, Ollama, transformers.js) and the
external linguistic analyzer are modelled as function parameters, since
their behaviour lives outside this repository; every control-flow
decision and every string produced by the repository's own code is
translated literally.
-/

/-! ## JavaScript string primitives

`charsStartWith hay sub` is `hay` beginning with `sub`;
`charsContain hay sub` is JavaScript `hay.includes(sub)`;
`strIncludes` / `jsStartsWith` lift these to `String`. -/

def charsStartWith : List Char → List Char → Bool
  | _, [] => true
  | [], _ :: _ => false
  | c :: cs, d :: ds => c = d && charsStartWith cs ds

def charsContain : List Char → List Char → Bool
  | [], sub => sub.isEmpty
  | c :: cs, sub => charsStartWith (c :: cs) sub || charsContain cs sub

/-- JavaScript `s.includes(sub)`. -/
def strIncludes (s sub : String) : Bool :=
  charsContain s.data sub.data

/-- JavaScript `s.startsWith(sub)`. -/
def jsStartsWith (s sub : String) : Bool :=
  charsStartWith s.data sub.data

/-- JavaScript whitespace (the characters relevant to this code base). -/
def isJsSpace (c : Char) : Bool :=
  c = ' ' || c = '\t' || c = '\n' || c = '\r'

/-- JavaScript `s.trim()`, defined structurally so that the kernel can
evaluate it. -/
def jsTrim (s : String) : String :=
  ⟨((s.data.dropWhile isJsSpace).reverse.dropWhile isJsSpace).reverse⟩

/-- JavaScript `s.toLowerCase()` (ASCII, which covers every keyword and
pattern in the source), defined structurally. -/
def jsToLower (s : String) : String :=
  ⟨s.data.map Char.toLower⟩

/-- JavaScript `array.join(sep)`, defined structurally. -/
def joinSep (sep : String) : List String → String
  | [] => ""
  | [s] => s
  | s :: rest => s ++ sep ++ joinSep sep rest

/-- JavaScript `s.replace(/\/$/, '')`: drop one trailing slash. -/
def stripTrailingSlash (s : String) : String :=
  if s.data.getLast? = some '/' then ⟨s.data.dropLast⟩ else s

/-! ## Streaming relay for non-streaming backends

`generateStream` (both variants) simulates a stream for non-streaming
model types: `for (let i = 0; i < text.length; i += chunkSize) yield
{ content: text.slice(i, i + chunkSize) }` with `chunkSize = 10`. -/

/-- One frame of the chunked stream protocol. -/
structure StreamChunk where
  content : String
deriving DecidableEq, Repr

/-- The slicing loop of the simulated stream, on character lists:
successive slices of length 10.  The fuel argument is the loop's
iteration bound (`i < text.length`); recursion is structural on it so
that the kernel can evaluate the function. -/
def chunkBy10Go : Nat → List Char → List (List Char)
  | _, [] => []
  | 0, _ :: _ => []
  | Nat.succ fuel, c :: cs => (c :: cs).take 10 :: chunkBy10Go fuel ((c :: cs).drop 10)

def chunkBy10 (l : List Char) : List (List Char) := chunkBy10Go l.length l

/-- The stream emitted by the fallback relay for a whole text
(`generateStream`, final `else` branch in both variants). -/
def relayChunks (text : String) : List StreamChunk :=
  (chunkBy10 text.data).map (fun cs => ⟨⟨cs⟩⟩)

/-! ## Data model -/

/-- A JavaScript runtime value, as far as the pipeline inspects one.
`num 0` stands for the falsy numbers (`0`, `NaN`); `obj` for any plain
object or array. -/
inductive JSVal where
  | str (s : String)
  | num (n : Int)
  | jsBool (b : Bool)
  | null
  | undef
  | obj
deriving DecidableEq, Repr

/-- JavaScript truthiness. -/
def JSVal.truthy : JSVal → Bool
  | .str s => s ≠ ""
  | .num n => n ≠ 0
  | .jsBool b => b
  | .null => false
  | .undef => false
  | .obj => true

/-- JavaScript string coercion `${v}` (template literal / `String(v)`),
as far as the pipeline applies it. -/
def jsDisplay : JSVal → String
  | .str s => s
  | .num n => toString n
  | .jsBool b => if b then "true" else "false"
  | .null => "null"
  | .undef => "undefined"
  | .obj => "[object Object]"

/-- The `data` object carried by an axios error response
(`error.response.data.error.message`, `.message`, `.detail`). -/
structure ErrData where
  errorMessage : Option String := none
  message : Option String := none
  detail : Option String := none
deriving DecidableEq, Repr

/-- `error.response`. -/
structure ErrResponse where
  status : Nat
  data : ErrData := {}
deriving DecidableEq, Repr

/-- A thrown JavaScript error: plain `Error`s and `TypeError`s carry
only `message`; axios errors may carry `response` and `code`
(e.g. `ECONNREFUSED`). -/
structure JsError where
  message : String
  response : Option ErrResponse := none
  code : Option String := none
deriving DecidableEq, Repr

/-- A JavaScript `||`-chain over possibly-undefined strings: the first
defined, non-empty (truthy) entry. -/
def firstTruthy : List (Option String) → Option String
  | [] => none
  | none :: rest => firstTruthy rest
  | some s :: rest => if s = "" then firstTruthy rest else some s

/-- `(prompt || '').toLowerCase()` (`generateWithLocalModel`, both
variants): a falsy value coerces to the empty string, a truthy value
that is not a string has no `toLowerCase` method and the expression
throws a `TypeError`. -/
def jsPromptLower : JSVal → Except JsError String
  | .str s => .ok (jsToLower s)
  | v => if v.truthy then
           .error { message := "TypeError: prompt.toLowerCase is not a function" }
         else .ok ""

/-- `(prompt || '')` as a string: the same coercion without the
lowering. -/
def jsPromptCoerce : JSVal → String
  | .str s => s
  | _ => ""

/-- `prompt.length < 80`: property access on `null` or `undefined`
throws; on other non-strings `length` is `undefined` and
`undefined < 80` is `false`. -/
def jsLengthLt80 : JSVal → Except JsError Bool
  | .str s => .ok (decide (s.length < 80))
  | .null => .error
      { message := "TypeError: Cannot read properties of null (reading \x27length\x27)" }
  | .undef => .error
      { message := "TypeError: Cannot read properties of undefined (reading \x27length\x27)" }
  | _ => .ok false

/-- JavaScript `array.slice(-n)`: the last `n` elements. -/
def takeLast (n : Nat) (l : List α) : List α :=
  l.drop (l.length - n)

/-- Static metadata of one `AVAILABLE_MODELS` entry.  Only the fields
consumed by the verified operations are carried: `description`, `free`,
`requiresKey`, `vision`, `transformersModel` and `hfModel` feed only
logging, the model-listing endpoint, or the opaque backend payloads. -/
structure ModelInfo where
  name : String
  mtype : String
  maxTokens : Nat
  description : String := ""
  free : Bool := false
  vision : Bool := false
  notice : Option String := none
  endpoint : Option String := none
  ollamaModel : Option String := none
deriving DecidableEq, Repr

/-- `(process.env.OLLAMA_HOST || 'http://localhost:11434').replace(/\/$/, '')`,
modelled with the environment variable unset. -/
def OLLAMA_HOST : String := stripTrailingSlash "http://localhost:11434"

/-- The model catalog of the first orchestration variant (default model
`local/aakarsh`). -/
def AVAILABLE_MODELS_009 : List (String × ModelInfo) :=
  [("xenova/tinyllama-chat",
    { name := "TinyLlama Chat (Local)", mtype := "xenova", maxTokens := 512,
      description := "Fast, lightweight 1.1B model running entirely on your machine. Best for quick chats.",
      free := true,
      notice := some "Runs locally on CPU. No data leaves your device." }),
   ("xenova/phi-1_5",
    { name := "Phi-1.5 (Local)", mtype := "xenova", maxTokens := 512,
      description := "Microsoft\x27s Phi-1.5 running locally. Good balance of speed and reasoning.",
      free := true,
      notice := some "Runs locally. First use downloads ~1.7GB weights." }),
   ("local/aakarsh",
    { name := "AAKARSH (Local)", mtype := "local", maxTokens := 2048,
      description := "Brand-new on-device LLM with richer NLP signals and a neural mesh for control-oriented replies.",
      free := true,
      notice := some "Enhanced NLP + neural mesh routing. Entirely local and deterministic." }),
   ("local/assistant-10m",
    { name := "Local Assistant (10M)", mtype := "local", maxTokens := 1024,
      description := "Lightweight 10M-parameter assistant optimized for quick on-device responses without external calls.",
      free := true,
      notice := some "Deterministic built-in assistant tuned for small-footprint deployments." }),
   ("local/instruct",
    { name := "Rule-Based Assistant", mtype := "local", maxTokens := 1024,
      description := "Instant responses using advanced pattern matching. Zero latency, offline capable.",
      free := true }),
   ("ollama/mistral:7b",
    { name := "Mistral 7B (Ollama)", mtype := "ollama", maxTokens := 2048,
      description := "High-performance local model via Ollama. Requires Ollama app running.",
      free := true,
      endpoint := some OLLAMA_HOST, ollamaModel := some "mistral:7b",
      notice := some "Requires Ollama running locally with \"mistral\" model." }),
   ("gpt-3.5-turbo",
    { name := "GPT-3.5 Turbo", mtype := "openai", maxTokens := 4096,
      description := "OpenAI Cloud API." }),
   ("gpt-4o",
    { name := "GPT-4o (Vision)", mtype := "openai", maxTokens := 4096,
      description := "OpenAI Multimodal Model (Text + Vision).", vision := true }),
   ("ollama/llava",
    { name := "LLaVA (Vision)", mtype := "ollama", maxTokens := 2048,
      description := "Local Multimodal Model (Text + Vision). Requires Ollama.",
      free := true, vision := true,
      endpoint := some OLLAMA_HOST, ollamaModel := some "llava",
      notice := some "Requires Ollama running locally with \"llava\" model." })]

/-- The model catalog of the second orchestration variant (default model
`local/instruct`, includes a Hugging Face cloud model). -/
def AVAILABLE_MODELS_010 : List (String × ModelInfo) :=
  [("local/instruct",
    { name := "Tiny LLM (Local Assistant)", mtype := "local", maxTokens := 1024,
      description := "Lightweight, rule-based language model running locally. No downloads required.",
      free := true }),
   ("xenova/tinyllama-chat",
    { name := "TinyLlama Chat (Local LLM)", mtype := "xenova", maxTokens := 512,
      description := "1.1B model. Requires model files in backend/models.", free := true,
      notice := some "Requires model files to be manually downloaded to backend/models." }),
   ("xenova/phi-1_5",
    { name := "Phi-1.5 (Local LLM)", mtype := "xenova", maxTokens := 512,
      description := "Microsoft Phi-1.5. Requires model files in backend/models.", free := true,
      notice := some "Requires model files to be manually downloaded to backend/models." }),
   ("ollama/mistral:7b",
    { name := "Mistral 7B (Ollama)", mtype := "ollama", maxTokens := 2048,
      description := "Requires Ollama app running locally.", free := true,
      endpoint := some OLLAMA_HOST, ollamaModel := some "mistral:7b",
      notice := some "Requires Ollama running locally." }),
   ("huggingface/meta-llama-3.1-8b-instruct",
    { name := "Llama 3.1 8B (Cloud)", mtype := "huggingface", maxTokens := 4096,
      description := "Remote inference via Hugging Face API.",
      notice := some "Requires API Key." }),
   ("gpt-3.5-turbo",
    { name := "GPT-3.5 Turbo", mtype := "openai", maxTokens := 4096,
      description := "OpenAI Cloud API." }),
   ("gpt-4o",
    { name := "GPT-4o (Vision)", mtype := "openai", maxTokens := 4096,
      description := "OpenAI Multimodal Model (Text + Vision).", vision := true }),
   ("ollama/llava",
    { name := "LLaVA (Vision)", mtype := "ollama", maxTokens := 2048,
      description := "Local Multimodal Model (Text + Vision). Requires Ollama.",
      free := true, vision := true,
      endpoint := some OLLAMA_HOST, ollamaModel := some "llava",
      notice := some "Requires Ollama running locally with \"llava\" model." })]

/-- `AVAILABLE_MODELS[id]`. -/
def lookupModel (models : List (String × ModelInfo)) (id : String) : Option ModelInfo :=
  (models.find? (fun p => p.1 = id)).map (·.2)

/-- `this.defaultModel` of the first variant. -/
def defaultModel009 : String := "local/aakarsh"

/-- `this.defaultModel` of the second variant. -/
def defaultModel010 : String := "local/instruct"

/-- The local-model resolution of `generateWithLocalModel` /
`generateLocalChatResponse` (first variant): keep the id when it names
a registered model of type `local`, otherwise use the default. -/
def resolveLocal009 (modelId : String) : String :=
  match lookupModel AVAILABLE_MODELS_009 modelId with
  | some m => if m.mtype = "local" then modelId else defaultModel009
  | none => defaultModel009

/-- Same resolution against the second variant's catalog. -/
def resolveLocal010 (modelId : String) : String :=
  match lookupModel AVAILABLE_MODELS_010 modelId with
  | some m => if m.mtype = "local" then modelId else defaultModel010
  | none => defaultModel010

/-- The dispatch resolution of `generateText` / `chat` (first variant):
an unknown id resolves to the default model. -/
def resolveModel009 (modelId : String) : String :=
  if (lookupModel AVAILABLE_MODELS_009 modelId).isSome then modelId else defaultModel009

/-- Same resolution against the second variant's catalog. -/
def resolveModel010 (modelId : String) : String :=
  if (lookupModel AVAILABLE_MODELS_010 modelId).isSome then modelId else defaultModel010

/-- Stands for a JavaScript `undefined` model record; only reachable
where the source would dereference `undefined`. -/
def undefinedModel : ModelInfo :=
  { name := "", mtype := "", maxTokens := 0 }

/-! ## Notice composer -/

/-- The JavaScript value found in `options.notice` / `model.notice`. -/
inductive NoticeVal where
  | noneV
  | str (s : String)
  | arr (l : List String)
deriving DecidableEq, Repr

/-- `normalizeNotices` (identical in both variants): absent values give
`[]`, strings are trimmed and dropped when empty, arrays are trimmed
elementwise and filtered. -/
def normalizeNotices : NoticeVal → List String
  | .noneV => []
  | .str s => if jsTrim s = "" then [] else [jsTrim s]
  | .arr l => (l.map jsTrim).filter (fun s => s ≠ "")

/-- Lift an optional static model notice to a `NoticeVal`. -/
def noticeOfOpt : Option String → NoticeVal
  | none => .noneV
  | some s => .str s

/-- Option fields consumed by the notice composer and the fallback
chain; sampling options only feed the opaque backend payloads. -/
structure GenOptions where
  notice : NoticeVal := .noneV
  inlineModelNotice : Option Bool := none
  requestedModel : Option String := none
deriving DecidableEq, Repr

/-- Result of `prepareNotices`. -/
structure PreparedNotices where
  inline : List String
  extra : List String
deriving DecidableEq, Repr

/-- `prepareNotices` of the first variant: `inlineModelNotice` defaults
to `true`. -/
def prepareNotices009 (model : Option ModelInfo) (options : GenOptions) : PreparedNotices :=
  let inline := normalizeNotices options.notice
  let modelNotices := normalizeNotices (noticeOfOpt (model.bind ModelInfo.notice))
  let extra := modelNotices
  let inlineModelNotice := options.inlineModelNotice.getD true
  if !modelNotices.isEmpty && inlineModelNotice then
    ⟨inline ++ modelNotices, extra⟩
  else
    ⟨inline, extra⟩

/-- `prepareNotices` of the second variant: `inlineModelNotice` defaults
to `model?.type !== 'huggingface'`. -/
def prepareNotices010 (model : Option ModelInfo) (options : GenOptions) : PreparedNotices :=
  let inline := normalizeNotices options.notice
  let modelNotices := normalizeNotices (noticeOfOpt (model.bind ModelInfo.notice))
  let extra := modelNotices
  let inlineModelNotice := options.inlineModelNotice.getD
    (match model with
     | some m => decide (m.mtype ≠ "huggingface")
     | none => true)
  if !modelNotices.isEmpty && inlineModelNotice then
    ⟨inline ++ modelNotices, extra⟩
  else
    ⟨inline, extra⟩

/-- `composeContent` (identical in both variants). -/
def composeContent (content : String) (inlineNotices : List String) : String :=
  if inlineNotices.isEmpty then content
  else joinSep "\n\n" inlineNotices ++ "\n\n" ++ content

/-- Result record of the text-generation entry points
(`{ text, model, modelInfo, loading, notices }`). -/
structure GenerationResult where
  text : String
  model : String
  modelInfo : Option ModelInfo
  loading : Bool := false
  notices : List String := []
deriving DecidableEq, Repr

/-- Result record of the chat entry points
(`{ message, model, modelInfo, loading, notices }`; `loading = none`
models the field left `undefined` by `chatWithOpenAI`). -/
structure ChatResult where
  message : String
  model : String
  modelInfo : Option ModelInfo
  loading : Option Bool := none
  notices : List String := []
deriving DecidableEq, Repr

/-- A chat message whose content is a string. -/
structure ChatMessage where
  role : String
  content : String
deriving DecidableEq, Repr

/-- An inbound chat message whose `content` may be any JavaScript value;
`generateLocalChatResponse` filters entries whose content is not a
string. -/
structure RawMessage where
  role : String
  content : JSVal
deriving DecidableEq, Repr

/-! ## Safety filter (first variant) -/

/-- One entry of `LOCAL_SAFETY_RULES`; each source pattern is a
case-insensitive alternation of the listed literal words. -/
structure SafetyRule where
  words : List String
  reason : String
deriving DecidableEq, Repr

def LOCAL_SAFETY_RULES : List SafetyRule :=
  [⟨["exploit", "backdoor", "zero-day", "ddos", "botnet", "ransomware"],
    "security attacks"⟩,
   ⟨["bomb", "weapon", "firearm", "munition", "explosive"],
    "weaponization content"⟩,
   ⟨["self-harm", "suicide", "kill myself", "end my life"],
    "self-harm support"⟩,
   ⟨["hate speech", "racial slur", "ethnic slur", "genocide"],
    "hate or discriminatory speech"⟩,
   ⟨["deepfake", "impersonat", "fake identity"],
    "impersonation or synthetic identity"⟩]

structure SafetyVerdict where
  blocked : Bool
  reason : Option String := none
  message : Option String := none
deriving DecidableEq, Repr

/-- The refusal text attached to a blocked verdict. -/
def safetyMessage (reason : String) : String :=
  "I can\x27t help with that request because it violates the " ++ reason ++
  " policy. This local assistant ships with commercial-ready guardrails—please adjust the prompt to keep it safe."

/-- `rule.pattern.test(prompt)`: the case-insensitive regex matches iff
one of its alternation words occurs in the lowered prompt. -/
def ruleMatches (prompt : String) (r : SafetyRule) : Bool :=
  r.words.any (fun w => strIncludes (jsToLower prompt) w)

/-- `runLocalSafetyChecks`: non-strings and the empty string are not
blocked; otherwise the first matching rule blocks. -/
def runLocalSafetyChecks (prompt : JSVal) : SafetyVerdict :=
  match prompt with
  | .str s =>
    if s = "" then { blocked := false }
    else
      match LOCAL_SAFETY_RULES.find? (ruleMatches s) with
      | some r => { blocked := true, reason := some r.reason,
                    message := some (safetyMessage r.reason) }
      | none => { blocked := false }
  | _ => { blocked := false }

/-! ## Linguistic analyzer output (external collaborator)

`nlpService.analyze` lives in an out-of-scope collaborator; the pipeline
consumes the fields below read-only.  An analysis value is a parameter
of the verified functions. -/

structure NlpKeyword where
  text : String
deriving DecidableEq, Repr

structure NlpSentiment where
  isPositive : Bool := false
  isNegative : Bool := false
deriving DecidableEq, Repr

structure NlpAnalysis where
  hasEntities : Bool := false
  topics : List String := []
  keywords : List NlpKeyword := []
  sentiment : NlpSentiment := {}
deriving DecidableEq, Repr

/-! ## Product sheets of the built-in models (first variant) -/

structure ProductProfile where
  name : String
  version : String
  parameters : String
  contextWindow : String
  latency : String
  privacy : String
  safety : String
  observability : String
  integration : String
  usage : String
deriving DecidableEq, Repr

def LOCAL_ASSISTANT_PRODUCT_PROFILE : ProductProfile :=
  { name := "Local Assistant (10M)"
    version := "1.0.0"
    parameters := "10 million dense parameters"
    contextWindow := "1K tokens"
    latency := "Fast CPU-only path tuned for sub-second replies on typical laptops"
    privacy := "Runs entirely on-device; no data leaves your machine."
    safety := "Deterministic NLP guardrails with disallowed-content filters and tone adaptation."
    observability := "Structured traces for intent, sentiment, keyword routing, and neural head activations."
    integration := "Use `/api/chat` or `/api/generate` with `model=local/assistant-10m`; streaming supported."
    usage := "Best for productized copilots where offline, predictable responses are required." }

def AAKARSH_PRODUCT_PROFILE : ProductProfile :=
  { name := "AAKARSH"
    version := "1.0.0"
    parameters := "120 million hybrid parameters (sparse + dense)"
    contextWindow := "4K tokens"
    latency := "CPU-only, optimized activation pruning and caching for quick loops"
    privacy := "Fully local execution. No third-party calls—analysis, routing, and synthesis stay on-device."
    safety := "Expanded intent-aware filters, tone aware cooling, and deterministic refusals."
    observability := "Insight traces for entities, domain focus, intent strength, and neural mesh activations."
    integration := "Use `/api/chat` or `/api/generate` with `model=local/aakarsh`; streaming supported."
    usage := "Ideal for production copilots needing richer NLP context with lightweight neural control." }

/-- The sentiment label used by both sheet builders. -/
def sheetSentimentLabel (a : NlpAnalysis) : String :=
  if a.sentiment.isPositive then "positive"
  else if a.sentiment.isNegative then "cautious"
  else "neutral"

/-- `buildLocalAssistantProductSheet`. -/
def buildLocalAssistantProductSheet (a : NlpAnalysis := {}) : String :=
  let highlightKeywords := ((a.keywords.take 4).map NlpKeyword.text).filter (fun s => s ≠ "")
  let p := LOCAL_ASSISTANT_PRODUCT_PROFILE
  let sections :=
    ["Product profile: " ++ p.parameters ++ ", " ++ p.contextWindow ++ ", " ++ p.latency ++ ".",
     "Trust & privacy: " ++ p.privacy ++ " Guardrails: " ++ p.safety,
     "Operational readiness: " ++ p.observability ++ " Integrations: " ++ p.integration,
     "Intended use: " ++ p.usage,
     if !highlightKeywords.isEmpty then
       "Focus cues from your prompt: " ++ joinSep ", " highlightKeywords ++
         " (tone: " ++ sheetSentimentLabel a ++ ")."
     else "Tone read: " ++ sheetSentimentLabel a ++ "."]
  "Production sheet — " ++ p.name ++ " v" ++ p.version ++ ":\n" ++ joinSep "\n" sections

/-- `buildAakarshProductSheet`. -/
def buildAakarshProductSheet (a : NlpAnalysis := {}) : String :=
  let highlightKeywords := ((a.keywords.take 5).map NlpKeyword.text).filter (fun s => s ≠ "")
  let domainHints := a.topics.take 3
  let p := AAKARSH_PRODUCT_PROFILE
  let sections :=
    (["Model core: " ++ p.parameters ++ ", " ++ p.contextWindow ++ ", " ++ p.latency ++ ".",
      "Trust & safety: " ++ p.privacy ++ " Guardrails: " ++ p.safety,
      "Observability: " ++ p.observability,
      "Integration: " ++ p.integration,
      "Usage fit: " ++ p.usage,
      if !highlightKeywords.isEmpty then
        "Prompt focal points: " ++ joinSep ", " highlightKeywords ++
          " (tone: " ++ sheetSentimentLabel a ++ ")."
      else "Tone read: " ++ sheetSentimentLabel a ++ ".",
      if !domainHints.isEmpty then
        "Detected domains: " ++ joinSep ", " domainHints ++ "." else ""]).filter
      (fun s => s ≠ "")
  "Production sheet — " ++ p.name ++ " v" ++ p.version ++ ":\n" ++ joinSep "\n" sections

/-- `buildOpenSourceCapabilitySummary` (first variant). -/
def buildOpenSourceCapabilitySummary : List String :=
  ((AVAILABLE_MODELS_009.filter
      (fun p => p.2.mtype = "xenova" || p.2.mtype = "ollama" || p.2.mtype = "local")).map
    (fun p =>
      let info := p.2
      let capabilityNotes :=
        (if info.maxTokens ≠ 0 then [toString info.maxTokens ++ " token window"] else []) ++
        (if info.vision then ["vision"] else []) ++
        (if info.free then ["no-cost"] else [])
      let suffix := if capabilityNotes.isEmpty then ""
                    else " (" ++ joinSep ", " capabilityNotes ++ ")"
      let descriptor := if info.description ≠ "" then info.description
                        else "Open-source capable model"
      "- " ++ (if info.name ≠ "" then info.name else p.1) ++ ": " ++ descriptor ++ suffix)).take 6

/-! ## Canned texts of the rule-based generators

Each definition below is the literal response string of one branch of
`generateWithLocalModel` / `generateLocalChatResponse` in the source
(apostrophes written as `\x27`). -/

def readyText009 : String :=
  "I\x27m here and ready when you are. Ask me anything about AI, coding, DevOps, security, monitoring, databases, testing, or this project."

def localNlpText009 : String :=
  "I now have advanced NLP capabilities powered by compromise.js! Here\x27s what I can do:\n\n**Entity Recognition**: I can identify people, places, organizations, dates, and values in your text.\n**Sentiment Analysis**: I can determine if text is positive, negative, or neutral.\n**Keyword Extraction**: I can identify the most important keywords and topics.\n**Intent Classification**: I can understand whether you\x27re asking a question, giving a command, or making a statement.\n**Part-of-Speech Tagging**: I can analyze the grammatical structure of text.\n\nAll these capabilities are rule-based and deterministic - no hallucinations, just accurate language understanding!"

def localAnalyzeText009 (keywordList : String) : String :=
  "I can help you analyze \"" ++ keywordList ++ "\" and related topics. My NLP engine has identified these as key concepts in your query. Let me provide targeted guidance based on what you\x27re looking for."

def helpText009 : String :=
  "I can assist with a wide range of IT and workplace operations:\n\n**Development & Code**: Code reviews, refactoring, best practices, design patterns, testing strategies\n**DevOps**: CI/CD pipelines, Docker, Kubernetes, deployment strategies, infrastructure as code\n**Security**: Vulnerability assessment, authentication, authorization, compliance, security best practices\n**Monitoring**: Logs, metrics, alerting, observability, Prometheus/Grafana setup\n**Databases**: Query optimization, schema design, migrations, backup/restore strategies\n**Performance**: Optimization techniques, caching, profiling, scalability improvements\n**Incident Response**: Troubleshooting, debugging, root cause analysis, postmortem reviews\n**Documentation**: Technical writing, API docs, runbooks, architecture documentation\n**Project Management**: Sprint planning, estimation, agile practices, retrospectives\n**NLP Features**: Entity extraction, sentiment analysis, keyword extraction, intent classification, text normalization\n\nI now include advanced NLP capabilities for better understanding of your queries. Ask me about any specific topic and I\x27ll provide actionable guidance!"

def aiUseText009 : String :=
  "Effective AI adoption starts by identifying repetitive or data-heavy workflows, wrapping them with reliable automation, and keeping humans in the loop for review. Start small, measure outcomes, then scale what works."

def llmText009 : String :=
  let openSourceLines := buildOpenSourceCapabilitySummary
  let capabilityBlock :=
    if !openSourceLines.isEmpty then
      "\n\nOpen-source choices already wired in:\n" ++ joinSep "\n" openSourceLines
    else ""
  "This chat ships with AAKARSH as the default on-device assistant. You can also switch to local transformers.js models or Ollama-hosted options without any external API keys." ++ capabilityBlock

def ragText009 : String :=
  "Retrieval-Augmented Generation (RAG) combines document search with an LLM. Upload files to the RAG storage and the backend will blend those snippets into the prompt. This app supports both GitHub code search and local file storage for RAG."

def deployText009 : String :=
  "For deployment: This app uses Docker Compose for orchestration. Run `docker compose up -d` for 24/7 availability with auto-restart. Check health at `/health`, monitor with `/metrics`. CI/CD pipeline includes tests, Docker builds, and security scanning. See DEPLOYMENT_GUIDE.md for details."

def securityText009 : String :=
  "Security features in this app: Helmet.js for security headers, rate limiting (100 req/15min), input validation with Joi, secrets via environment variables, Trivy scanning in CI/CD. Always run `npm audit` before deployment and keep dependencies updated."

def monitorText009 : String :=
  "Monitoring setup: Prometheus metrics at `/metrics`, Winston logs in `backend/logs/`, health checks at `/health`. View logs with `tail -f backend/logs/combined.log` or `docker compose logs -f`. Set up Grafana dashboards for visualization."

def testText009 : String :=
  "Testing: Jest + Supertest for backend (current coverage 47%, target 80%+). Run `npm test` in backend directory. Add integration tests for new endpoints. Consider Playwright/Cypress for E2E tests. Test-driven development recommended."

def dbText009 : String :=
  "Database operations: Currently using file-based RAG storage. For production, consider PostgreSQL with Prisma ORM. Focus on schema design, indexing, query optimization, connection pooling, and automated backups with tested restoration procedures."

def perfText009 : String :=
  "Performance optimization: Check metrics at `/metrics` for slow endpoints. Implement Redis caching, database indexing, code profiling. Use connection pooling, pagination, and streaming for large datasets. Monitor CPU, memory, and event loop lag."

def quickThoughtText009 (trimmed : String) : String :=
  "Here\x27s a quick thought: " ++ trimmed ++ " -> consider the goal, the data you have, and the user journey you want to support. For technical implementations, verify security, add tests, and monitor performance."

def detailedText009 : String :=
  "Thanks for the detailed prompt! A concise plan would be:\n1. Clarify the objective and success criteria.\n2. Break the work into small experiments or PRs.\n3. Add tests and monitoring.\n4. Deploy incrementally and measure results.\n5. Iterate based on feedback.\n\nAsk if you\x27d like deeper guidance on any step."

/-! ## `generateWithLocalModel` -/

/-- The first response chain of `generateWithLocalModel` (first
variant): the two built-in neural models route to their generators, an
empty prompt yields the canned greeting, and NLP-derived branches may
apply; otherwise `response` stays unset. -/
def localChain1_009 (aakarshGen assistGen : String → NlpAnalysis → String)
    (fallbackModelId lowerPrompt promptStr : String)
    (nlpAnalysis : Option NlpAnalysis) : Option String :=
  if fallbackModelId = "local/aakarsh" then
    some (aakarshGen promptStr (nlpAnalysis.getD {}))
  else if fallbackModelId = "local/assistant-10m" then
    some (assistGen promptStr (nlpAnalysis.getD {}))
  else if promptStr = "" || jsTrim promptStr = "" then
    some readyText009
  else
    match nlpAnalysis with
    | some a =>
      if a.hasEntities then
        if strIncludes lowerPrompt "nlp" || strIncludes lowerPrompt "natural language" then
          some localNlpText009
        else if strIncludes lowerPrompt "analyze" && !a.keywords.isEmpty then
          some (localAnalyzeText009
            (joinSep ", " ((a.keywords.take 3).map NlpKeyword.text)))
        else none
      else none
    | none => none

/-- The second `if`/`else if` chain of `generateWithLocalModel` (first
variant).  Only its opening branch consults `response1`; the other
branches, including the terminal `else`, **reassign** the response.
The `prompt.length` test throws on `null`. -/
def localChain2_009 (response1 : Option String) (lowerPrompt promptStr : String)
    (promptV : JSVal) : Except JsError String :=
  if response1.isNone &&
      (strIncludes lowerPrompt "help" || strIncludes lowerPrompt "what can you do") then
    pure helpText009
  else if strIncludes lowerPrompt "ai" && strIncludes lowerPrompt "use" then
    pure aiUseText009
  else if strIncludes lowerPrompt "language model" || strIncludes lowerPrompt "llm" then
    pure llmText009
  else if strIncludes lowerPrompt "rag" then
    pure ragText009
  else if strIncludes lowerPrompt "deploy" || strIncludes lowerPrompt "docker" ||
      strIncludes lowerPrompt "ci/cd" then
    pure deployText009
  else if strIncludes lowerPrompt "security" || strIncludes lowerPrompt "vulnerability" then
    pure securityText009
  else if strIncludes lowerPrompt "monitor" || strIncludes lowerPrompt "logs" ||
      strIncludes lowerPrompt "metrics" then
    pure monitorText009
  else if strIncludes lowerPrompt "test" || strIncludes lowerPrompt "testing" then
    pure testText009
  else if strIncludes lowerPrompt "database" || strIncludes lowerPrompt "sql" then
    pure dbText009
  else if strIncludes lowerPrompt "performance" || strIncludes lowerPrompt "optimize" then
    pure perfText009
  else do
    let lt ← jsLengthLt80 promptV
    if lt then pure (quickThoughtText009 (jsTrim promptStr))
    else pure detailedText009

/-- The result record shared by both exits of `generateWithLocalModel`
(first variant): notices prepared against the resolved local model,
inline notices composed into the text. -/
def localResult009 (modelId : String) (options : GenOptions) (text : String) :
    GenerationResult :=
  let model := (lookupModel AVAILABLE_MODELS_009 (resolveLocal009 modelId)).getD undefinedModel
  let np := prepareNotices009 (some model) options
  { text := composeContent text np.inline, model := resolveLocal009 modelId,
    modelInfo := some model, loading := false, notices := np.extra }

/-- `generateWithLocalModel` of the first variant.  The two neural text
generators and the external NLP analyzer are parameters (`aakarshGen`,
`assistGen` receive the coerced prompt string and the analysis; a
`none` analysis models the swallowed `catch` around
`nlpService.analyze`).  The value of the first response chain is
overwritten by the second `if`/`else if` chain unless the second
chain's opening branch (the only one guarded by `!response`) applies,
exactly as in the source. -/
def generateWithLocalModel009
    (nlpAnalyze : String → Option NlpAnalysis)
    (aakarshGen assistGen : String → NlpAnalysis → String)
    (promptV : JSVal) (modelId : String) (options : GenOptions) :
    Except JsError GenerationResult :=
  let promptV := if promptV = JSVal.undef then JSVal.str "" else promptV
  let fallbackModelId := resolveLocal009 modelId
  do
  let lowerPrompt ← jsPromptLower promptV
  let safety := runLocalSafetyChecks promptV
  if safety.blocked then
    let sheet := if fallbackModelId = "local/aakarsh" then buildAakarshProductSheet
                 else buildLocalAssistantProductSheet
    let refusal := (safety.message.getD "") ++ "\n\n" ++ sheet
    pure (localResult009 modelId options refusal)
  else
    let promptStr := jsPromptCoerce promptV
    let nlpAnalysis :=
      if promptV.truthy && jsTrim promptStr ≠ "" then nlpAnalyze promptStr else none
    let response1 := localChain1_009 aakarshGen assistGen fallbackModelId lowerPrompt
      promptStr nlpAnalysis
    let response2 ← localChain2_009 response1 lowerPrompt promptStr promptV
    pure (localResult009 modelId options response2)

/-- `generateWithLocalModel` of the second variant: it computes
`lowerPrompt` (throwing for truthy non-strings), runs the NLP analysis
inside a swallowed `try` (this variant does not even import
`nlpService`, so the catch always fires), and delegates all text
generation to `tinyLLM.generate`, which catches every error of its own
and therefore appears as the total parameter `tinyGen`. -/
def generateWithLocalModel010 (tinyGen : JSVal → String)
    (promptV : JSVal) (modelId : String) (options : GenOptions) :
    Except JsError GenerationResult :=
  let promptV := if promptV = JSVal.undef then JSVal.str "" else promptV
  let fallbackModelId := resolveLocal010 modelId
  let model := (lookupModel AVAILABLE_MODELS_010 fallbackModelId).getD undefinedModel
  do
  let _lowerPrompt ← jsPromptLower promptV
  let response := tinyGen promptV
  let np := prepareNotices010 (some model) options
  pure { text := composeContent response np.inline, model := fallbackModelId,
         modelInfo := some model, loading := false, notices := np.extra }

/-! ## `generateLocalChatResponse` (first variant) -/

def formatTopicList : List String → String
  | [] => ""
  | [t] => "\"" ++ t ++ "\""
  | [t1, t2] => "\"" ++ t1 ++ "\" and \"" ++ t2 ++ "\""
  | topics =>
    joinSep ", " (topics.dropLast.map (fun item => "\"" ++ item ++ "\"")) ++
      ", and \"" ++ (topics.getLast?.getD "") ++ "\""

def chatNlpText : String :=
  localNlpText009 ++ " Try the /api/v1/nlp endpoints or ask me to analyze text for you."

def chatDeployText (raw : String) : String :=
  "For deployment and CI/CD related to \"" ++ raw ++ "\", here\x27s a solid approach:\n1. **Pre-deployment Checklist**: Ensure all tests pass, dependencies are up-to-date, and environment variables are configured.\n2. **Deployment Strategy**: Use blue-green or canary deployments for zero-downtime releases. Docker Compose or Kubernetes for orchestration.\n3. **Monitoring**: Set up health checks, log aggregation, and alerts (Prometheus/Grafana recommended).\n4. **Rollback Plan**: Always have a one-command rollback strategy ready.\n5. **Post-deployment**: Verify critical paths, check metrics, and monitor error rates for 15-30 minutes.\n\nFor this project: Use the existing `deploy.sh` script or `docker-compose up` for quick deployments. Check `/health` and `/metrics` endpoints post-deploy."

def chatSecurityText (raw : String) : String :=
  "Addressing security concerns in \"" ++ raw ++ "\":\n1. **Authentication & Authorization**: Implement JWT tokens, use bcrypt for passwords, validate all inputs with Joi schemas.\n2. **Vulnerability Scanning**: Run `npm audit` regularly, use Trivy for container scanning (already in CI/CD).\n3. **Common Threats**: Protect against SQL injection, XSS, CSRF. This app already uses Helmet.js for security headers.\n4. **Secrets Management**: Never commit secrets. Use environment variables and .env files (excluded in .gitignore).\n5. **API Security**: Rate limiting is active (100 req/15min). Consider API keys for production.\n\nCurrent protections: Helmet.js, rate limiting, input validation ready, CORS configured."

def chatMonitorText (raw : String) : String :=
  "For monitoring and observability regarding \"" ++ raw ++ "\":\n1. **Metrics Collection**: This app exposes Prometheus metrics at `/metrics` including request duration, counts, and system stats.\n2. **Logging**: Structured Winston logs in `backend/logs/` with separate error and combined logs. JSON format for easy parsing.\n3. **Health Checks**: `/health` endpoint shows uptime, environment, and status. Docker health checks run every 30s.\n4. **Alerting**: Set up Prometheus AlertManager rules for error rates, latency spikes, or downtime.\n5. **Dashboards**: Import Grafana dashboards for Node.js apps to visualize metrics.\n\nCheck logs: `tail -f backend/logs/combined.log` or `docker compose logs -f`"

def chatIncidentText (raw : String) : String :=
  "Handling incidents for \"" ++ raw ++ "\":\n1. **Immediate Response**: Check `/health` endpoint, review recent logs (`backend/logs/error.log`), verify external services.\n2. **Diagnosis**: Look at metrics (`/metrics`), check error rates, identify timing of issue vs recent deployments.\n3. **Mitigation**: Rollback to last known good version if needed, scale resources, or implement quick fixes.\n4. **Communication**: Update status page, notify stakeholders, provide ETAs.\n5. **Root Cause Analysis**: Document timeline, identify contributing factors, create action items.\n6. **Prevention**: Add monitoring alerts, improve tests, update runbooks.\n\nFor this app: Check container status with `docker compose ps`, restart with `docker compose restart`."

def chatDatabaseText (raw : String) : String :=
  "For database operations related to \"" ++ raw ++ "\":\n1. **Schema Design**: Normalize for consistency, denormalize for performance where needed. Use foreign keys and indexes.\n2. **Migrations**: Use a tool like Prisma Migrate or Sequelize migrations. Always test on staging first.\n3. **Query Optimization**: Use EXPLAIN to analyze slow queries, add indexes on frequently queried columns, avoid N+1 queries.\n4. **Backup Strategy**: Automated daily backups, point-in-time recovery, test restoration regularly.\n5. **Connection Pooling**: Configure max connections (pg-pool for Postgres), monitor active connections.\n\nThis app currently uses file-based RAG storage. For production, consider PostgreSQL with Prisma ORM."

def chatTestingText (raw : String) : String :=
  "For testing approaches to \"" ++ raw ++ "\":\n1. **Unit Tests**: Test individual functions in isolation. Current coverage: 47% (target: 80%+).\n2. **Integration Tests**: Test API endpoints with supertest. Add tests for all new endpoints.\n3. **E2E Tests**: Use Playwright or Cypress for full user flows (not yet implemented).\n4. **Test-Driven Development**: Write tests first, then implement features.\n5. **Coverage Goals**: Aim for 80%+ code coverage, but focus on critical paths.\n\nCurrent setup: Jest + Supertest. Run `npm test` in backend. Add tests in `server.test.js`."

def chatPerformanceText (raw : String) : String :=
  "To optimize performance for \"" ++ raw ++ "\":\n1. **Identify Bottlenecks**: Use Prometheus metrics to find slow endpoints, check memory usage, CPU, and event loop lag.\n2. **Caching**: Implement Redis for API responses, cache LLM results, use CDN for static assets.\n3. **Database**: Add indexes, use query caching, implement connection pooling, paginate large result sets.\n4. **Code**: Profile with Node.js inspector, avoid synchronous operations, use streaming for large data.\n5. **Infrastructure**: Scale horizontally, use load balancing, optimize Docker images.\n\nCheck current metrics: `curl http://localhost:4000/metrics` and look at `http_request_duration_seconds`."

def chatCodeReviewText (raw : String) : String :=
  "For code review and refactoring of \"" ++ raw ++ "\":\n1. **Code Quality**: Follow consistent style (ESLint configured), use meaningful names, keep functions small (<50 lines).\n2. **Design Patterns**: Apply SOLID principles, use dependency injection, favor composition over inheritance.\n3. **Refactoring**: Extract duplicated code, simplify complex conditionals, improve error handling.\n4. **Documentation**: Add JSDoc comments for public APIs, update README for changes, document non-obvious logic.\n5. **Technical Debt**: Track in TODO.md, prioritize by impact, refactor incrementally.\n\nReview checklist: Security issues, test coverage, error handling, logging, consistent patterns."

def chatDocumentationText (raw : String) : String :=
  "For documentation regarding \"" ++ raw ++ "\":\n1. **README**: Clear setup instructions, architecture overview, troubleshooting section (see current README.md).\n2. **API Documentation**: Consider Swagger/OpenAPI for interactive docs, document all endpoints, parameters, responses.\n3. **Code Comments**: JSDoc for functions, explain why not what, document edge cases and assumptions.\n4. **Runbooks**: Create step-by-step guides for common operations (deployment, backups, incident response).\n5. **Architecture Diagrams**: Visual representations help new team members understand the system.\n\nCurrent docs: README.md, FEATURES.md, DEPLOYMENT_GUIDE.md, SYSTEMD_SETUP.md. Keep them updated!"

def chatSprintText (raw : String) : String :=
  "For project management and agile practices around \"" ++ raw ++ "\":\n1. **Sprint Planning**: Break epics into user stories, estimate with story points or hours, prioritize by value and risk.\n2. **Daily Standups**: What did I complete? What am I working on? Any blockers?\n3. **Estimation**: Use planning poker, consider complexity not time, build in buffer for unknowns.\n4. **Retrospectives**: What went well? What didn\x27t? Action items for improvement.\n5. **Velocity Tracking**: Measure completed story points per sprint to improve future estimates.\n\nFor this project: Track tasks in GitHub Issues, use project boards, link PRs to issues."

def chatDockerText (raw : String) : String :=
  "For containerization regarding \"" ++ raw ++ "\":\n1. **Docker Best Practices**: Multi-stage builds, minimal base images, .dockerignore, security scanning.\n2. **Docker Compose**: Orchestrate multiple services, manage networking, volumes, environment variables.\n3. **Kubernetes**: For production scale, use deployments, services, ingress, config maps, secrets.\n4. **Health Checks**: Define readiness/liveness probes (already configured in docker-compose.yml).\n5. **Resource Limits**: Set memory/CPU limits to prevent resource exhaustion.\n\nThis app: Uses Docker with health checks, restart policies. See `docker-compose.yml` and Dockerfiles."

def chatBackupText (raw : String) : String :=
  "For backup and disaster recovery of \"" ++ raw ++ "\":\n1. **Backup Strategy**: Automated daily backups, retain for 30 days, test restoration monthly.\n2. **What to Backup**: Database, user uploads (`backend/rag_storage`), configuration files, secrets (encrypted).\n3. **Backup Storage**: Off-site storage (S3, Azure Blob), multiple geographic regions.\n4. **Recovery Testing**: Regularly test restore procedures, document RTO/RPO requirements.\n5. **Application State**: For stateless apps, re-deploy from code. For stateful, restore data volumes.\n\nFor this app: Backup `backend/rag_storage` directory and environment variables. RAG documents should be backed up externally."

def chatHelloText (raw : String) : String :=
  "Hey there! It\x27s good to hear from you. What should we tackle about \"" ++ raw ++ "\" today?"

def chatThanksText (raw : String) : String :=
  "Always happy to help. If \"" ++ raw ++ "\" sparks anything else, just say the word."

def chatErrorText (raw : String) : String :=
  "Let\x27s troubleshoot \"" ++ raw ++ "\" systematically:\n1. Recreate the failure with the smallest input.\n2. Capture the exact error output or stack trace.\n3. Check recent code or config changes touching that area.\n4. Add a focused test so the fix sticks.\nPing me with what you find and we\x27ll narrow it down further."

def chatHowText (raw : String) : String :=
  "Here\x27s a structured way to tackle \"" ++ raw ++ "\":\n1. Nail the success criteria so you know when you\x27re done.\n2. Break the work into bite-sized experiments or pull requests.\n3. Instrument early so you can measure progress.\n4. Iterate with feedback after each milestone.\nTell me which step feels fuzzy and we\x27ll flesh it out."

def chatWhatText (raw : String) : String :=
  "When explaining \"" ++ raw ++ "\", start with the core idea, add why it matters for this project, then call out the trade-offs so stakeholders know when to use it."

def chatWhyText (raw : String) : String :=
  "To reason through \"" ++ raw ++ "\", line up the inputs and constraints, test the strongest counter-argument, and see which assumptions hold. The answer usually shows up once you make the hidden assumption explicit."

def chatRagText (raw : String) : String :=
  "For RAG topics like \"" ++ raw ++ "\", validate three things: chunk quality, retrieval scoring, and how the prompt stitches sources into responses. Reviewing a few retrieved snippets manually can spotlight gaps fast."

def chatDefaultText (raw : String) : String :=
  "Here\x27s how I\x27d approach \"" ++ raw ++ "\": clarify the outcome, list the constraints, sketch the smallest experiment, and iterate once you see signal."

/-- The `if`/`else if` response chain of `generateLocalChatResponse`
(identical in both variants), applied to the trimmed last user
message.  Note: no safety check occurs anywhere in this chain. -/
def localChatResponse (rawContent : String) : String :=
  let lowerContent := jsToLower rawContent
  if strIncludes lowerContent "nlp" || strIncludes lowerContent "natural language" then
    chatNlpText
  else if strIncludes lowerContent "deploy" || strIncludes lowerContent "deployment" ||
      strIncludes lowerContent "ci/cd" || strIncludes lowerContent "pipeline" then
    chatDeployText rawContent
  else if strIncludes lowerContent "security" || strIncludes lowerContent "vulnerability" ||
      strIncludes lowerContent "auth" then
    chatSecurityText rawContent
  else if strIncludes lowerContent "monitor" || strIncludes lowerContent "logs" ||
      strIncludes lowerContent "metrics" || strIncludes lowerContent "observability" then
    chatMonitorText rawContent
  else if strIncludes lowerContent "incident" || strIncludes lowerContent "outage" ||
      strIncludes lowerContent "downtime" || strIncludes lowerContent "postmortem" then
    chatIncidentText rawContent
  else if strIncludes lowerContent "database" || strIncludes lowerContent "sql" ||
      strIncludes lowerContent "query" || strIncludes lowerContent "migration" then
    chatDatabaseText rawContent
  else if strIncludes lowerContent "test" || strIncludes lowerContent "testing" ||
      strIncludes lowerContent "jest" || strIncludes lowerContent "coverage" then
    chatTestingText rawContent
  else if strIncludes lowerContent "performance" || strIncludes lowerContent "optimize" ||
      strIncludes lowerContent "slow" || strIncludes lowerContent "cache" then
    chatPerformanceText rawContent
  else if strIncludes lowerContent "code review" || strIncludes lowerContent "refactor" ||
      strIncludes lowerContent "best practice" || strIncludes lowerContent "clean code" then
    chatCodeReviewText rawContent
  else if strIncludes lowerContent "documentation" || strIncludes lowerContent "readme" ||
      strIncludes lowerContent "api doc" || strIncludes lowerContent "runbook" then
    chatDocumentationText rawContent
  else if strIncludes lowerContent "sprint" || strIncludes lowerContent "agile" ||
      strIncludes lowerContent "planning" || strIncludes lowerContent "estimation" then
    chatSprintText rawContent
  else if strIncludes lowerContent "docker" || strIncludes lowerContent "container" ||
      strIncludes lowerContent "kubernetes" then
    chatDockerText rawContent
  else if strIncludes lowerContent "backup" || strIncludes lowerContent "restore" ||
      strIncludes lowerContent "disaster recovery" then
    chatBackupText rawContent
  else if strIncludes lowerContent "hello" || strIncludes lowerContent "hi " ||
      jsStartsWith lowerContent "hi" || jsStartsWith lowerContent "hello" then
    chatHelloText rawContent
  else if strIncludes lowerContent "thanks" || strIncludes lowerContent "thank you" then
    chatThanksText rawContent
  else if strIncludes lowerContent "error" || strIncludes lowerContent "issue" ||
      strIncludes lowerContent "fail" then
    chatErrorText rawContent
  else if jsStartsWith lowerContent "how " || strIncludes lowerContent " how " ||
      strIncludes lowerContent "steps" || strIncludes lowerContent "plan" then
    chatHowText rawContent
  else if jsStartsWith lowerContent "what " || strIncludes lowerContent "what is" ||
      strIncludes lowerContent "explain" then
    chatWhatText rawContent
  else if strIncludes lowerContent "why" || strIncludes lowerContent "reason" then
    chatWhyText rawContent
  else if strIncludes lowerContent "rag" then
    chatRagText rawContent
  else
    chatDefaultText rawContent

/-- `safeMessages`: entries whose content is a string. -/
def safeChatMessages (messages : List RawMessage) : List ChatMessage :=
  messages.filterMap
    (fun m => match m.content with | .str s => some ⟨m.role, s⟩ | _ => none)

/-- `lastUserIndex`: index of the last `user` entry, via the reversed
`findIndex` of the source. -/
def lastUserIndex009 (safeMessages : List ChatMessage) : Option Nat :=
  ((safeMessages.reverse).findIdx? (fun m => m.role = "user")).map
    (fun r => safeMessages.length - 1 - r)

/-- `generateLocalChatResponse` of the first variant. -/
def generateLocalChatResponse009
    (nlpAnalyze : String → Option NlpAnalysis)
    (aakarshGen assistGen : String → NlpAnalysis → String)
    (messages : List RawMessage) (modelId : String) (options : GenOptions) :
    Except JsError GenerationResult :=
  let fallbackModelId := resolveLocal009 modelId
  let model := (lookupModel AVAILABLE_MODELS_009 fallbackModelId).getD undefinedModel
  let safeMessages := safeChatMessages messages
  let lastUserIndex := lastUserIndex009 safeMessages
  let lastUserMessage : Option ChatMessage :=
    lastUserIndex.bind (fun i => safeMessages.get? i)
  match lastUserMessage with
  | none =>
    generateWithLocalModel009 nlpAnalyze aakarshGen assistGen (.str "") fallbackModelId options
  | some lu =>
    if jsTrim lu.content = "" then
      generateWithLocalModel009 nlpAnalyze aakarshGen assistGen (.str "") fallbackModelId options
    else
      let rawContent := jsTrim lu.content
      let luIdx := lastUserIndex.getD 0
      let previousTopics :=
        ((takeLast 3 (safeMessages.enum.filter
            (fun p => p.2.role = "user" && decide (p.1 < luIdx)))).map
          (fun p => jsTrim p.2.content)).filter (fun s => s ≠ "")
      let response := localChatResponse rawContent
      let topicLine :=
        if !previousTopics.isEmpty then
          "Earlier you also mentioned " ++ formatTopicList previousTopics ++
            ". I\x27m keeping that thread in mind so the guidance stays coherent."
        else ""
      let closingLine := "If you want examples, drafts, or a deeper dive, just ask."
      let finalResponse :=
        (if topicLine ≠ "" then response ++ "\n\n" ++ topicLine else response) ++
          "\n\n" ++ closingLine
      let np := prepareNotices009 (some model) options
      .ok { text := composeContent finalResponse np.inline, model := fallbackModelId,
            modelInfo := some model, loading := false, notices := np.extra }

/-! ## Backend oracles

The network backends are outside this repository; each is a function
parameter returning either the text it produced or the error it threw.
`Backends` also records whether the Hugging Face credential is present
in the environment. -/

structure Backends where
  openaiClient : Option (List RawMessage → Except JsError String) := none
  xenovaPipe : String → String → Except JsError String := fun _ _ => .error { message := "" }
  ollamaHttp : String → String → Except JsError String := fun _ _ => .error { message := "" }
  hfPost : List ChatMessage → Except JsError String := fun _ => .error { message := "" }
  hfKeyPresent : Bool := false

structure StreamBackends where
  openaiStream : List RawMessage → Except JsError (List StreamChunk) :=
    fun _ => .error { message := "" }
  ollamaStream : List RawMessage → Except JsError (List StreamChunk) :=
    fun _ => .error { message := "" }

/-- `modelId.replace(/^ollama\//, '')`. -/
def dropOllamaNamespace (id : String) : String :=
  if jsStartsWith id "ollama/" then ⟨id.data.drop 7⟩ else id

/-- JavaScript `s.slice(n)` on a string, structurally. -/
def jsDrop (s : String) (n : Nat) : String := ⟨s.data.drop n⟩

/-! ## Provider adapters -/

/-- `generateWithOpenAI` (identical in both variants up to the
surrounding catalog): without a configured client it throws; on a
backend error the `catch` logs and rethrows; the `loading` field is
left undefined by the source and is observably `false` downstream
(`result.loading || false`). -/
def generateWithOpenAI (models : List (String × ModelInfo))
    (prepare : Option ModelInfo → GenOptions → PreparedNotices)
    (openaiClient : Option (List RawMessage → Except JsError String))
    (prompt : String) (modelId : String) (options : GenOptions) :
    Except JsError GenerationResult :=
  let model := lookupModel models modelId
  match openaiClient with
  | none => .error { message := "OpenAI API key not configured. Please set OPENAI_API_KEY environment variable." }
  | some call =>
    match call [⟨"user", .str prompt⟩] with
    | .ok generatedText =>
      let np := prepare model options
      .ok { text := composeContent generatedText np.inline, model := modelId,
            modelInfo := model, loading := false, notices := np.extra }
    | .error e => .error e

/-- `generateWithXenova` (identical in both variants up to the
surrounding catalog): strips an echoed prompt from the raw
continuation; any pipeline error falls back to the local model. -/
def generateWithXenova (models : List (String × ModelInfo))
    (prepare : Option ModelInfo → GenOptions → PreparedNotices)
    (localFallback : String → GenOptions → Except JsError GenerationResult)
    (xenovaPipe : String → String → Except JsError String)
    (prompt : String) (modelId : String) (options : GenOptions) :
    Except JsError GenerationResult :=
  match lookupModel models modelId with
  | none => localFallback prompt { requestedModel := some modelId, notice := .str "Requested local transformer model was not found. Using built-in assistant instead." }
  | some model =>
    match xenovaPipe modelId prompt with
    | .ok generatedText =>
      let trimmed := if jsStartsWith generatedText prompt then
                       jsTrim (jsDrop generatedText prompt.length)
                     else jsTrim generatedText
      let resultText := if trimmed ≠ "" then trimmed
                        else if jsTrim generatedText ≠ "" then jsTrim generatedText
                        else "Local model did not return any output."
      let np := prepare (some model) options
      .ok { text := composeContent resultText np.inline, model := modelId,
            modelInfo := some model, loading := false, notices := np.extra }
    | .error e =>
      localFallback prompt { requestedModel := some modelId, notice := .str ("Local transformers.js model " ++ modelId ++ " failed: " ++ e.message ++ ". Using built-in assistant instead.") }

/-- `generateWithOllama` (identical in both variants up to the
surrounding catalog).  A connection-refused error produces a notice
naming the daemon's base URL; every error falls back to the local
model with the original prompt. -/
def generateWithOllama (models : List (String × ModelInfo))
    (prepare : Option ModelInfo → GenOptions → PreparedNotices)
    (localFallback : String → GenOptions → Except JsError GenerationResult)
    (ollamaHttp : String → String → Except JsError String)
    (prompt : String) (modelId : String) (options : GenOptions) :
    Except JsError GenerationResult :=
  match lookupModel models modelId with
  | none => localFallback prompt { requestedModel := some modelId, notice := .str "Requested Ollama model was not found. Using built-in assistant instead." }
  | some model =>
    let baseUrl := stripTrailingSlash (model.endpoint.getD OLLAMA_HOST)
    let targetModel := model.ollamaModel.getD (dropOllamaNamespace modelId)
    match ollamaHttp (baseUrl ++ "/api/generate") prompt with
    | .ok dataText =>
      let generatedText := jsTrim dataText
      let generatedText := if generatedText = "" then
                             "Ollama model did not return any output."
                           else generatedText
      let np := prepare (some model) options
      .ok { text := composeContent generatedText np.inline, model := modelId,
            modelInfo := some model, loading := false, notices := np.extra }
    | .error error =>
      let notice :=
        if error.code = some "ECONNREFUSED" then
          "Could not reach Ollama at " ++ baseUrl ++
            ". Ensure the Ollama service is running and the model is pulled. Using built-in assistant instead."
        else
          "Ollama model " ++ targetModel ++ " failed: " ++ error.message ++
            ". Using built-in assistant instead."
      localFallback prompt { requestedModel := some modelId, notice := .str notice }

/-! ## Hugging Face router (second variant only) -/

/-- `requestHuggingFaceChat`: filters messages to those with string
content, throws when none remain, then posts the payload (whose
sampling fields are opaque here) through the `hfPost` oracle. -/
def requestHuggingFaceChat (hfPost : List ChatMessage → Except JsError String)
    (messages : List RawMessage) (modelId : String) : Except JsError String :=
  match lookupModel AVAILABLE_MODELS_010 modelId with
  | none => .error { message := "Unknown Hugging Face model: " ++ modelId }
  | some _ =>
    let safeMessages : List ChatMessage := messages.filterMap
      (fun m => match m.content with | .str s => some ⟨m.role, s⟩ | _ => none)
    if safeMessages.isEmpty then
      .error { message := "At least one message with string content is required for Hugging Face chat completions." }
    else hfPost safeMessages

/-- `handleHuggingFaceTextError`.  `fb p opts` stands for
`this.generateWithLocalModel(p, this.defaultModel, opts)`: the 503 and
429 branches return canned texts naming the default model **without**
calling it; 401/403 return the auth failure naming the requested model;
410, 400-with-message and the generic path call `fb` once with the
original prompt. -/
def handleHuggingFaceTextError
    (fb : String → GenOptions → Except JsError GenerationResult)
    (error : JsError) (prompt requestedModel : String) :
    Except JsError GenerationResult :=
  let model := lookupModel AVAILABLE_MODELS_010 requestedModel
  let modelNotices := normalizeNotices (noticeOfOpt (model.bind ModelInfo.notice))
  let genericOutcome :=
    let statusLabel := match error.response with
      | some r => if r.status ≠ 0 then " (status " ++ toString r.status ++ ")" else ""
      | none => ""
    let detail := firstTruthy [error.response.bind (fun r => r.data.errorMessage),
                               some error.message]
    fb prompt { requestedModel := some requestedModel, notice := .str (match detail with | some d => "Remote generation failed" ++ statusLabel ++ ": " ++ d ++ ". Using the built-in assistant instead." | none => "Remote generation failed. Using the built-in assistant instead.") }
  match error.response with
  | some r =>
    let errorMessage := firstTruthy [r.data.errorMessage, r.data.message, r.data.detail]
    if r.status = 503 then
      .ok { text := "Model is currently loading. This can take 20-30 seconds for the first request. Please try again in a moment...\n\nFalling back to the built-in assistant for now.",
            model := defaultModel010,
            modelInfo := lookupModel AVAILABLE_MODELS_010 defaultModel010,
            loading := true, notices := modelNotices }
    else if r.status = 429 then
      .ok { text := "Rate limit reached for the selected Hugging Face model. Using the built-in assistant instead.",
            model := defaultModel010,
            modelInfo := lookupModel AVAILABLE_MODELS_010 defaultModel010,
            loading := false, notices := modelNotices }
    else if r.status = 401 ∨ r.status = 403 then
      .ok { text := (match errorMessage with
              | some m => "Authentication failed for the Hugging Face router: " ++ m ++
                  ". Please double-check the HUGGINGFACE_API_KEY value."
              | none => "Authentication failed for the Hugging Face router. Please double-check the HUGGINGFACE_API_KEY value."),
            model := requestedModel, modelInfo := model, loading := false,
            notices := modelNotices }
    else if r.status = 410 then
      fb prompt { requestedModel := some requestedModel, notice := .str "The selected Hugging Face model endpoint returned 410 (gone). Using the built-in assistant instead." }
    else if r.status = 400 then
      match errorMessage with
      | some m => fb prompt { requestedModel := some requestedModel, notice := .str ("Hugging Face router rejected the request: " ++ m ++ ". Using the built-in assistant instead.") }
      | none => genericOutcome
    else genericOutcome
  | none => genericOutcome

/-- `generateWithHuggingFace` (second variant). -/
def generateWithHuggingFace010 (hfPost : List ChatMessage → Except JsError String)
    (fb : String → GenOptions → Except JsError GenerationResult)
    (prompt : String) (modelId : String) (options : GenOptions) :
    Except JsError GenerationResult :=
  match lookupModel AVAILABLE_MODELS_010 modelId with
  | none => fb prompt { requestedModel := some modelId, notice := .str "Requested Hugging Face model was not found. Using built-in assistant instead." }
  | some model =>
    match requestHuggingFaceChat hfPost [⟨"user", .str prompt⟩] modelId with
    | .ok raw =>
      let generated := jsTrim raw
      if generated = "" then
        handleHuggingFaceTextError fb
          { message := "Hugging Face router returned an empty response." } prompt modelId
      else
        let np := prepareNotices010 (some model) options
        .ok { text := composeContent generated np.inline, model := modelId,
              modelInfo := some model, loading := false, notices := np.extra }
    | .error e => handleHuggingFaceTextError fb e prompt modelId

/-- `handleHuggingFaceChatError`.  `fbChat ms opts` stands for
`this.generateLocalChatResponse(ms, this.defaultModel, opts)`. -/
def handleHuggingFaceChatError
    (fbChat : List RawMessage → GenOptions → Except JsError GenerationResult)
    (error : JsError) (messages : List RawMessage) (requestedModel : String) :
    Except JsError ChatResult :=
  let model := lookupModel AVAILABLE_MODELS_010 requestedModel
  let status : Option Nat := error.response.map (fun r => r.status)
  let errorMessage := firstTruthy
    [error.response.bind (fun r => r.data.errorMessage),
     error.response.bind (fun r => r.data.message),
     some error.message]
  if status = some 503 then do
    let f ← fbChat messages { requestedModel := some requestedModel, notice := .str "Model is currently loading. This can take 20-30 seconds for the first request. Please try again in a moment...\n\nFalling back to the built-in assistant for now." }
    pure { message := f.text, model := f.model, modelInfo := f.modelInfo,
           loading := some true, notices := f.notices }
  else if status = some 429 then do
    let f ← fbChat messages { requestedModel := some requestedModel, notice := .str "Rate limit reached for the selected Hugging Face model. Using the built-in assistant instead." }
    pure { message := f.text, model := f.model, modelInfo := f.modelInfo,
           loading := some f.loading, notices := f.notices }
  else if status = some 401 ∨ status = some 403 then
    .ok { message := (match errorMessage with
            | some m => "Authentication failed for the Hugging Face router: " ++ m ++
                ". Please double-check the HUGGINGFACE_API_KEY value."
            | none => "Authentication failed for the Hugging Face router. Please double-check the HUGGINGFACE_API_KEY value."),
          model := requestedModel, modelInfo := model, loading := some false,
          notices := normalizeNotices (noticeOfOpt (model.bind ModelInfo.notice)) }
  else if status = some 410 then do
    let f ← fbChat messages { requestedModel := some requestedModel, notice := .str "The selected Hugging Face model endpoint returned 410 (gone). Using the built-in assistant instead." }
    pure { message := f.text, model := f.model, modelInfo := f.modelInfo,
           loading := some f.loading, notices := f.notices }
  else if status = some 400 ∧ errorMessage.isSome then do
    let f ← fbChat messages { requestedModel := some requestedModel, notice := .str ("Hugging Face router rejected the request: " ++ (errorMessage.getD "") ++ ". Using the built-in assistant instead.") }
    pure { message := f.text, model := f.model, modelInfo := f.modelInfo,
           loading := some f.loading, notices := f.notices }
  else do
    let f ← fbChat messages { requestedModel := some requestedModel, notice := .str (match status with | some st => "Remote generation failed (status " ++ toString st ++ "). Using the built-in assistant instead." | none => "Remote generation failed. Using the built-in assistant instead.") }
    pure { message := f.text, model := f.model, modelInfo := f.modelInfo,
           loading := some f.loading, notices := f.notices }

/-! ## Chat/OpenAI entry points -/

/-- `chatWithOpenAI` (identical in both variants up to the surrounding
catalog): without a client it throws, on a backend error the `catch`
logs and **rethrows** — no fallback, and the `loading` field is left
undefined. -/
def chatWithOpenAI (models : List (String × ModelInfo))
    (prepare : Option ModelInfo → GenOptions → PreparedNotices)
    (openaiClient : Option (List RawMessage → Except JsError String))
    (messages : List RawMessage) (modelId : String) (options : GenOptions) :
    Except JsError ChatResult :=
  let model := lookupModel models modelId
  match openaiClient with
  | none => .error { message := "OpenAI API key not configured. Please set OPENAI_API_KEY environment variable." }
  | some call =>
    match call messages with
    | .ok responseMessage =>
      let np := prepare model options
      .ok { message := composeContent responseMessage np.inline, model := modelId,
            modelInfo := model, loading := none, notices := np.extra }
    | .error e => .error e

/-- `formatMessagesAsPrompt` (identical in both variants). -/
def formatMessagesAsPrompt (messages : List RawMessage) (modelId : String) : String :=
  if strIncludes modelId "llama-2" then
    joinSep "\n\n" (messages.map (fun msg =>
      if msg.role = "system" then "<<SYS>>\n" ++ jsDisplay msg.content ++ "\n<</SYS>>"
      else if msg.role = "user" then "[INST] " ++ jsDisplay msg.content ++ " [/INST]"
      else jsDisplay msg.content))
  else if strIncludes modelId "mistral" || strIncludes modelId "mixtral" ||
      strIncludes modelId "zephyr" then
    joinSep "\n" (messages.map (fun msg =>
      if msg.role = "system" then "<s>[INST] " ++ jsDisplay msg.content ++ " [/INST]"
      else if msg.role = "user" then "[INST] " ++ jsDisplay msg.content ++ " [/INST]"
      else jsDisplay msg.content))
  else
    joinSep "\n\n" (messages.map (fun msg => msg.role ++ ": " ++ jsDisplay msg.content)) ++
      "\nassistant:"

/-! ## Dispatch: `generateText`, `chat`, `generateStream` -/

/-- `generateText` of the first variant.  An unknown `modelId` resolves
to the default model before any branch is taken. -/
def generateText009 (B : Backends)
    (nlpAnalyze : String → Option NlpAnalysis)
    (aakarshGen assistGen : String → NlpAnalysis → String)
    (prompt : String) (modelId : String) (options : GenOptions) :
    Except JsError GenerationResult :=
  let requestedModel := resolveModel009 modelId
  let model := (lookupModel AVAILABLE_MODELS_009 requestedModel).getD undefinedModel
  let localFallback : String → GenOptions → Except JsError GenerationResult :=
    fun p opts => generateWithLocalModel009 nlpAnalyze aakarshGen assistGen
      (.str p) defaultModel009 opts
  if model.mtype = "local" then
    generateWithLocalModel009 nlpAnalyze aakarshGen assistGen (.str prompt) requestedModel
      { requestedModel := some modelId, notice := options.notice }
  else if model.mtype = "openai" then
    generateWithOpenAI AVAILABLE_MODELS_009 prepareNotices009 B.openaiClient
      prompt requestedModel options
  else if model.mtype = "xenova" then
    generateWithXenova AVAILABLE_MODELS_009 prepareNotices009 localFallback B.xenovaPipe
      prompt requestedModel options
  else if model.mtype = "ollama" then
    generateWithOllama AVAILABLE_MODELS_009 prepareNotices009 localFallback B.ollamaHttp
      prompt requestedModel options
  else
    localFallback prompt { requestedModel := some modelId, notice := .str "Requested model type is not supported. Using the built-in assistant instead." }

/-- `generateText` of the second variant (adds the two Hugging Face
branches). -/
def generateText010 (B : Backends) (tinyGen : JSVal → String)
    (prompt : String) (modelId : String) (options : GenOptions) :
    Except JsError GenerationResult :=
  let requestedModel := resolveModel010 modelId
  let model := (lookupModel AVAILABLE_MODELS_010 requestedModel).getD undefinedModel
  let localFallback : String → GenOptions → Except JsError GenerationResult :=
    fun p opts => generateWithLocalModel010 tinyGen (.str p) defaultModel010 opts
  if model.mtype = "local" then
    generateWithLocalModel010 tinyGen (.str prompt) requestedModel
      { requestedModel := some modelId, notice := options.notice }
  else if model.mtype = "openai" then
    generateWithOpenAI AVAILABLE_MODELS_010 prepareNotices010 B.openaiClient
      prompt requestedModel options
  else if model.mtype = "xenova" then
    generateWithXenova AVAILABLE_MODELS_010 prepareNotices010 localFallback B.xenovaPipe
      prompt requestedModel options
  else if model.mtype = "ollama" then
    generateWithOllama AVAILABLE_MODELS_010 prepareNotices010 localFallback B.ollamaHttp
      prompt requestedModel options
  else if model.mtype = "huggingface" ∧ ¬B.hfKeyPresent then
    generateWithLocalModel010 tinyGen (.str prompt) defaultModel010
      { requestedModel := some modelId, notice := .str "Hugging Face API key not configured. Using built-in assistant instead." }
  else if model.mtype = "huggingface" then
    generateWithHuggingFace010 B.hfPost localFallback prompt requestedModel options
  else
    localFallback prompt { requestedModel := some modelId, notice := .str "Requested model type is not supported. Using the built-in assistant instead." }

/-- `chat` of the first variant. -/
def chat009 (B : Backends)
    (nlpAnalyze : String → Option NlpAnalysis)
    (aakarshGen assistGen : String → NlpAnalysis → String)
    (messages : List RawMessage) (modelId : String) (options : GenOptions) :
    Except JsError ChatResult :=
  let resolvedModelId := resolveModel009 modelId
  let model := (lookupModel AVAILABLE_MODELS_009 resolvedModelId).getD undefinedModel
  if model.mtype = "openai" then
    chatWithOpenAI AVAILABLE_MODELS_009 prepareNotices009 B.openaiClient
      messages resolvedModelId options
  else if model.mtype = "local" then do
    let r ← generateLocalChatResponse009 nlpAnalyze aakarshGen assistGen
      messages resolvedModelId options
    pure { message := r.text, model := r.model, modelInfo := r.modelInfo,
           loading := some r.loading, notices := r.notices }
  else do
    let prompt := formatMessagesAsPrompt messages resolvedModelId
    let r ← generateText009 B nlpAnalyze aakarshGen assistGen prompt resolvedModelId options
    pure { message := r.text, model := r.model, modelInfo := r.modelInfo,
           loading := some r.loading, notices := r.notices }

/-- `generateStream` of the first variant: an unknown `modelId` yields
a single `Model not found` chunk and returns — it is **not** resolved
to the default model.  For non-streaming model types the relay chunks
the one-shot result of `generateText`. -/
def generateStream009 (B : Backends) (SB : StreamBackends)
    (nlpAnalyze : String → Option NlpAnalysis)
    (aakarshGen assistGen : String → NlpAnalysis → String)
    (input : String ⊕ List RawMessage) (modelId : String) (options : GenOptions) :
    Except JsError (List StreamChunk) :=
  match lookupModel AVAILABLE_MODELS_009 modelId with
  | none => .ok [⟨"Model not found"⟩]
  | some model =>
    let messages := match input with
      | .inl s => [⟨"user", .str s⟩]
      | .inr l => l
    if model.mtype = "openai" then
      match B.openaiClient with
      | none => .error { message := "OpenAI API key not configured" }
      | some _ => SB.openaiStream messages
    else if model.mtype = "ollama" then
      SB.ollamaStream messages
    else
      match messages.getLast? with
      | none => .error
          { message := "TypeError: Cannot read properties of undefined (reading \x27content\x27)" }
      | some lastMsg => do
        let result ← generateText009 B nlpAnalyze aakarshGen assistGen
          (jsDisplay lastMsg.content) modelId options
        pure (relayChunks result.text)

/-! ## Augmentation-stage context injection (HTTP layer, `createApp`) -/

/-- One configured external API, as listed by
`apiOrchestrationService.listApis()`. -/
structure ApiInfo where
  name : String
  description : String
  baseUrl : String
deriving DecidableEq, Repr

/-- The `[System Note: ...]` capability block (identical text at both
injection sites). -/
def apiContextBlock (apis : List ApiInfo) : String :=
  "\n\n[System Note: You have access to the following external APIs. If the user asks for data from these sources, you can help them construct a query using the API Orchestrator.\n" ++
    joinSep "\n" (apis.map (fun a => "- " ++ a.name ++ ": " ++ a.description ++ " (" ++ a.baseUrl ++ ")")) ++
    "\n]"

/-- The marker substring checked by the guarded injection site. -/
def apiContextMarker : String :=
  "System Note: You have access to the following external APIs"

/-- `messages.findIndex(m => m.role === 'system')`. -/
def findSystemIdx : List ChatMessage → Option Nat
  | [] => none
  | m :: ms => if m.role = "system" then some 0 else (findSystemIdx ms).map (· + 1)

/-- `messages[i].content += ctx`. -/
def appendContentAt : List ChatMessage → Nat → String → List ChatMessage
  | [], _, _ => []
  | m :: ms, 0, ctx => { m with content := m.content ++ ctx } :: ms
  | m :: ms, n + 1, ctx => m :: appendContentAt ms n ctx

/-- API-context injection of `/api/v1/chat`: **unguarded** — when a
system message exists the block is appended unconditionally. -/
def injectApiContextChat (apis : List ApiInfo) (messages : List ChatMessage) :
    List ChatMessage :=
  if apis.isEmpty then messages
  else
    let apiContext := apiContextBlock apis
    match findSystemIdx messages with
    | some i => appendContentAt messages i apiContext
    | none => ⟨"system", "You are a helpful AI assistant." ++ apiContext⟩ :: messages

/-- API-context injection of `/api/v1/chat/stream`: guarded by checking
the marker substring in the existing system message. -/
def injectApiContextStream (apis : List ApiInfo) (messages : List ChatMessage) :
    List ChatMessage :=
  if apis.isEmpty then messages
  else
    let apiContext := apiContextBlock apis
    match findSystemIdx messages with
    | some i =>
      if strIncludes (((messages.get? i).map ChatMessage.content).getD "") apiContextMarker then
        messages
      else appendContentAt messages i apiContext
    | none => ⟨"system", "You are a helpful AI assistant." ++ apiContext⟩ :: messages

/-- A ranked result from the search collaborator. -/
structure SearchResult where
  title : String
  link : String
  snippet : String
deriving DecidableEq, Repr

/-- The `[Web Search Results ...]` block of the stream endpoint. -/
def searchContextBlock (apiName : String) (results : List SearchResult) : String :=
  "\n\n[Web Search Results (" ++ apiName ++ "):\n" ++
    joinSep "\n" (results.map (fun r => "- [" ++ r.title ++ "](" ++ r.link ++ "): " ++ r.snippet)) ++
    "\n]\n[Instruction: Use the above search results to answer the user\x27s question. Cite your sources using [Title](Link) format.]"

/-- Web-search injection of `/api/v1/chat/stream`: skipped only when
the result list is empty; **no marker guard**. -/
def injectSearchContext (apiName : String) (results : List SearchResult)
    (messages : List ChatMessage) : List ChatMessage :=
  if results.isEmpty then messages
  else
    let searchContext := searchContextBlock apiName results
    match findSystemIdx messages with
    | some i => appendContentAt messages i searchContext
    | none => ⟨"system", "You are a helpful AI assistant." ++ searchContext⟩ :: messages

/-! ## Intent detector (`intentDetector.js`) -/

structure IntentCategory where
  name : String
  description : String
  keywords : List String
  route : String
  ragType : Option String := none
  priority : Nat
deriving DecidableEq, Repr

/-- `INTENT_CATEGORIES`, in declaration order (object-literal insertion
order, which `Object.entries` preserves). -/
def INTENT_CATEGORIES : List (String × IntentCategory) :=
  [("CHAT",
    { name := "General Chat", description := "General conversation and questions",
      keywords := ["hello", "hi", "how are you", "what is", "explain", "tell me", "describe", "chat"],
      route := "/chat", priority := 1 }),
   ("CODE",
    { name := "Code Related", description := "Programming, coding, development questions",
      keywords := ["code", "function", "program", "debug", "error", "syntax", "python", "javascript", "java", "algorithm", "api", "database"],
      route := "/rag", ragType := some "github", priority := 3 }),
   ("DOCUMENT_SEARCH",
    { name := "Document Search", description := "Search in uploaded documents or knowledge base",
      keywords := ["search", "find", "document", "file", "knowledge", "lookup", "retrieve", "where is", "show me"],
      route := "/rag", ragType := some "server", priority := 2 }),
   ("ANALYSIS",
    { name := "Data Analysis", description := "Data analysis, statistics, insights",
      keywords := ["analyze", "analysis", "statistics", "data", "chart", "graph", "trend", "compare", "evaluate"],
      route := "/rag", ragType := some "server", priority := 2 }),
   ("GITHUB",
    { name := "GitHub Repository", description := "GitHub repository related queries",
      keywords := ["github", "repository", "repo", "commit", "pull request", "issue", "branch", "fork"],
      route := "/rag", ragType := some "github", priority := 4 }),
   ("DEVOPS",
    { name := "DevOps Operations",
      description := "CI/CD, deployment, containerization, infrastructure operations",
      keywords := ["deploy", "deployment", "docker", "container", "kubernetes", "k8s", "ci/cd", "pipeline", "build", "jenkins", "github actions", "gitlab", "terraform", "ansible", "infrastructure"],
      route := "/chat", priority := 3 }),
   ("SECURITY",
    { name := "Security Operations",
      description := "Security vulnerabilities, compliance, access control, authentication",
      keywords := ["security", "vulnerability", "cve", "authentication", "authorization", "oauth", "jwt", "ssl", "tls", "encryption", "penetration", "audit", "compliance", "gdpr", "hipaa", "firewall", "intrusion"],
      route := "/chat", priority := 4 }),
   ("MONITORING",
    { name := "Monitoring & Observability",
      description := "System monitoring, logs, metrics, alerting, performance tracking",
      keywords := ["monitor", "monitoring", "log", "logs", "metric", "metrics", "alert", "alerting", "prometheus", "grafana", "elk", "splunk", "apm", "trace", "observability", "dashboard"],
      route := "/chat", priority := 3 }),
   ("INCIDENT",
    { name := "Incident Response",
      description := "Troubleshooting, debugging, incident management, root cause analysis",
      keywords := ["incident", "outage", "downtime", "troubleshoot", "debug", "fix", "broken", "not working", "crash", "failure", "root cause", "postmortem", "500 error", "404 error", "timeout"],
      route := "/chat", priority := 5 }),
   ("DATABASE",
    { name := "Database Operations",
      description := "Database queries, optimization, backup, migration, schema design",
      keywords := ["database", "sql", "query", "postgres", "postgresql", "mysql", "mongodb", "redis", "schema", "migration", "backup", "restore", "index", "optimize", "orm", "prisma", "sequelize"],
      route := "/chat", priority := 3 }),
   ("DOCUMENTATION",
    { name := "Documentation",
      description := "Technical documentation, API docs, runbooks, writing guides",
      keywords := ["documentation", "document", "readme", "wiki", "guide", "tutorial", "how-to", "manual", "api doc", "swagger", "openapi", "runbook", "playbook"],
      route := "/chat", priority := 2 }),
   ("TESTING",
    { name := "Testing & QA",
      description := "Unit testing, integration testing, test automation, quality assurance",
      keywords := ["test", "testing", "jest", "mocha", "pytest", "junit", "selenium", "cypress", "coverage", "mock", "stub", "qa", "quality", "e2e", "integration test", "unit test"],
      route := "/chat", priority := 3 }),
   ("PERFORMANCE",
    { name := "Performance Optimization",
      description := "Performance tuning, profiling, caching, scalability improvements",
      keywords := ["performance", "optimize", "optimization", "slow", "latency", "throughput", "cache", "caching", "scale", "scalability", "profile", "profiling", "bottleneck", "memory leak"],
      route := "/chat", priority := 3 }),
   ("PROJECT_MANAGEMENT",
    { name := "Project Management",
      description := "Sprint planning, task estimation, agile methodologies, retrospectives",
      keywords := ["sprint", "scrum", "agile", "kanban", "backlog", "story", "epic", "retrospective", "standup", "planning", "estimation", "velocity", "jira", "ticket"],
      route := "/chat", priority := 2 }),
   ("CODE_REVIEW",
    { name := "Code Review",
      description := "Code quality, best practices, refactoring, design patterns",
      keywords := ["code review", "review", "refactor", "refactoring", "clean code", "best practice", "design pattern", "solid", "dry", "code smell", "technical debt", "lint", "linting"],
      route := "/chat", priority := 3 }),
   ("SYSTEM_ADMIN",
    { name := "System Administration",
      description := "User management, server configuration, backups, system maintenance",
      keywords := ["admin", "administrator", "user management", "permission", "role", "server", "nginx", "apache", "systemd", "cron", "backup", "maintenance", "configuration", "setup"],
      route := "/chat", priority := 3 }),
   ("WEB_SEARCH",
    { name := "Web Search", description := "Search the internet for current information",
      keywords := ["search", "google", "bing", "latest", "news", "current", "weather", "price", "stock", "who is", "what is", "when is", "find online", "look up"],
      route := "/chat", priority := 5 }),
   ("IMAGE_GENERATION",
    { name := "Image Generation", description := "Generate images from text description",
      keywords := ["generate image", "create image", "draw", "picture of", "image of", "photo of", "illustrate", "paint"],
      route := "/image", priority := 5 })]

/-- `AVAILABLE` intent lookup by key. -/
def lookupIntent (k : String) : Option IntentCategory :=
  (INTENT_CATEGORIES.find? (fun p => p.1 = k)).map (fun p => p.2)

/-- A category's score: each keyword contained in the lowered input
adds the category's priority. -/
def categoryScore (input : String) (c : IntentCategory) : Nat :=
  c.keywords.foldl
    (fun score keyword => if strIncludes input keyword then score + c.priority else score) 0

/-- Result record of `detectIntent`. -/
structure IntentResult where
  intent : String
  name : String
  description : String
  route : String
  ragType : Option String
  confidence : ℚ
  scores : List (String × Nat)
deriving DecidableEq, Repr

/-- The selection loop of `detectIntent`: starting from
`detectedIntent = 'CHAT'`, `maxScore = 0`, replace on a strictly
greater score. -/
def pickBestIntent (scores : List (String × Nat)) : String × Nat :=
  scores.foldl (fun best p => if p.2 > best.2 then p else best) ("CHAT", 0)

/-- `IntentDetector.detectIntent`. -/
def detectIntent (userInput : String) : IntentResult :=
  let input := jsToLower userInput
  let scores := INTENT_CATEGORIES.map (fun p => (p.1, categoryScore input p.2))
  let best := pickBestIntent scores
  let detectedIntent := best.1
  let maxScore := best.2
  let intent := (lookupIntent detectedIntent).getD
    { name := "", description := "", keywords := [], route := "", priority := 0 }
  { intent := detectedIntent, name := intent.name, description := intent.description,
    route := intent.route, ragType := intent.ragType,
    confidence := if maxScore > 0 then min ((maxScore : ℚ) / 10) 1 else 1 / 2,
    scores := scores }

/-! ## Concrete instances and accessors used by closed statements -/

/-- An analyzer that always fails (the swallowed catch path). -/
def noNlp : String → Option NlpAnalysis := fun _ => none

/-- A constant neural generator. -/
def constGen : String → NlpAnalysis → String := fun _ _ => "neural output"

/-- A constant `tinyLLM.generate`. -/
def tinyGenConst : JSVal → String := fun _ => "tiny output"

/-- A probe fallback recording its prompt, to observe whether and how
the fallback adapter is invoked. -/
def fbProbe : String → GenOptions → Except JsError GenerationResult :=
  fun p opts => .ok { text := "FALLBACK:" ++ p, model := "probe", modelInfo := none,
                      loading := false, notices := normalizeNotices opts.notice }

/-- A probe chat fallback. -/
def fbChatProbe : List RawMessage → GenOptions → Except JsError GenerationResult :=
  fun ms opts => .ok { text := "FALLBACK:" ++ toString ms.length, model := "probe",
                       modelInfo := none, loading := false,
                       notices := normalizeNotices opts.notice }

def authErr401 : JsError :=
  { message := "Request failed with status code 401", response := some { status := 401 } }

def rateErr429 : JsError :=
  { message := "Request failed with status code 429", response := some { status := 429 } }

def goneErr410 : JsError :=
  { message := "Request failed with status code 410", response := some { status := 410 } }

def connRefusedErr : JsError :=
  { message := "connect ECONNREFUSED 127.0.0.1:11434", code := some "ECONNREFUSED" }

def exceptIsOk {A : Type} : Except JsError A → Bool
  | .ok _ => true
  | .error _ => false

def genTextOf : Except JsError GenerationResult → String
  | .ok r => r.text
  | .error _ => ""

def chatTextOf : Except JsError ChatResult → String
  | .ok c => c.message
  | .error _ => ""

def streamContentsOf : Except JsError (List StreamChunk) → List String
  | .ok l => l.map StreamChunk.content
  | .error _ => []

/-!  ********************************************************************
     Theorems
     ******************************************************************** -/

/-! ### Shared lemmas about the string primitives -/

theorem charsStartWith_append (hay sub ext : List Char)
    (h : charsStartWith hay sub = true) :
    charsStartWith (hay ++ ext) sub = true := by
  induction sub generalizing hay with
  | nil => simp [charsStartWith]
  | cons d ds ih =>
    cases hay with
    | nil => simp [charsStartWith] at h
    | cons c cs =>
      simp only [charsStartWith, Bool.and_eq_true, decide_eq_true_eq] at h
      simp only [List.cons_append, charsStartWith, Bool.and_eq_true,
        decide_eq_true_eq]
      exact ⟨h.1, ih cs h.2⟩

theorem charsContain_append_left (hay sub ext : List Char)
    (h : charsContain hay sub = true) :
    charsContain (hay ++ ext) sub = true := by
  induction hay with
  | nil =>
    simp only [charsContain, List.isEmpty_iff] at h
    subst h
    cases ext with
    | nil => simp [charsContain]
    | cons e es => simp [charsContain, charsStartWith]
  | cons c cs ih =>
    simp only [charsContain, Bool.or_eq_true] at h
    rcases h with h | h
    · simp only [List.cons_append, charsContain, Bool.or_eq_true]
      exact Or.inl (charsStartWith_append _ _ _ h)
    · simp only [List.cons_append, charsContain, Bool.or_eq_true]
      exact Or.inr (ih h)

theorem charsContain_append_right (hay sub ext : List Char)
    (h : charsContain hay sub = true) :
    charsContain (ext ++ hay) sub = true := by
  induction ext with
  | nil => simpa using h
  | cons e es ih =>
    simp only [List.cons_append, charsContain, Bool.or_eq_true]
    exact Or.inr ih

theorem strIncludes_append_left (a b sub : String)
    (h : strIncludes a sub = true) :
    strIncludes (a ++ b) sub = true := by
  simpa [strIncludes, String.data_append] using
    charsContain_append_left a.data sub.data b.data (by simpa [strIncludes] using h)

theorem strIncludes_append_right (a b sub : String)
    (h : strIncludes b sub = true) :
    strIncludes (a ++ b) sub = true := by
  simpa [strIncludes, String.data_append] using
    charsContain_append_right b.data sub.data a.data (by simpa [strIncludes] using h)

/-! ### Chunk relay lemmas -/

theorem chunkBy10Go_flatten : ∀ n (l : List Char), l.length ≤ n →
    (chunkBy10Go n l).flatten = l := by
  intro n
  induction n with
  | zero =>
    intro l h
    have : l = [] := List.length_eq_zero.mp (Nat.le_zero.mp h)
    subst this
    simp [chunkBy10Go]
  | succ n ih =>
    intro l h
    cases l with
    | nil => simp [chunkBy10Go]
    | cons c cs =>
      rw [chunkBy10Go]
      have hd : ((c :: cs).drop 10).length ≤ n := by
        simp only [List.length_drop, List.length_cons]
        simp only [List.length_cons] at h
        omega
      simp only [List.flatten_cons, ih _ hd, List.take_append_drop]

theorem chunkBy10Go_length : ∀ n (l : List Char), l.length ≤ n →
    (chunkBy10Go n l).length = (l.length + 9) / 10 := by
  intro n
  induction n with
  | zero =>
    intro l h
    have : l = [] := List.length_eq_zero.mp (Nat.le_zero.mp h)
    subst this
    simp [chunkBy10Go]
  | succ n ih =>
    intro l h
    cases l with
    | nil => simp [chunkBy10Go]
    | cons c cs =>
      rw [chunkBy10Go]
      have hd : ((c :: cs).drop 10).length ≤ n := by
        simp only [List.length_drop, List.length_cons]
        simp only [List.length_cons] at h
        omega
      simp only [List.length_cons, ih _ hd, List.length_drop]
      omega

theorem chunkBy10_flatten (l : List Char) : (chunkBy10 l).flatten = l :=
  chunkBy10Go_flatten l.length l le_rfl

theorem chunkBy10_length (l : List Char) :
    (chunkBy10 l).length = (l.length + 9) / 10 :=
  chunkBy10Go_length l.length l le_rfl

theorem string_foldl_append_data (l : List String) (init : String) :
    (l.foldl (· ++ ·) init).data = init.data ++ (l.map String.data).flatten := by
  induction l generalizing init with
  | nil => simp
  | cons s t ih =>
    simp [List.foldl_cons, ih, String.data_append, List.append_assoc]

theorem string_join_data (l : List String) :
    (String.join l).data = (l.map String.data).flatten := by
  simpa [String.join] using string_foldl_append_data l ""

/-- Claim C6: for every text relayed by the streaming fallback with fixed
chunk size 10, the concatenation of the emitted `StreamChunk` contents
equals the original text, and the number of emitted chunks equals
⌈N/10⌉ where N is the length of the text. -/
theorem relayChunks_concat_and_count (text : String) :
    String.join ((relayChunks text).map StreamChunk.content) = text ∧
    (relayChunks text).length = (text.data.length + 9) / 10 := by
  constructor
  · have h1 : ((relayChunks text).map StreamChunk.content).map String.data
        = chunkBy10 text.data := by
      simp only [relayChunks, List.map_map]
      exact List.map_id'' (fun x => rfl) _
    apply String.ext
    rw [string_join_data, h1, chunkBy10_flatten]
  · simpa [relayChunks] using chunkBy10_length text.data

/-! ### Notice composer (C9) -/

theorem prepareNotices_core (inl mn : List String) (flag : Bool) :
    (if !mn.isEmpty && flag then (⟨inl ++ mn, mn⟩ : PreparedNotices) else ⟨inl, mn⟩)
      = ⟨inl ++ (if flag then mn else []), mn⟩ := by
  cases flag <;> cases mn <;> simp

theorem prepareNotices009_eq (model : Option ModelInfo) (options : GenOptions) :
    prepareNotices009 model options =
      ⟨normalizeNotices options.notice ++
         (if options.inlineModelNotice.getD true then
            normalizeNotices (noticeOfOpt (model.bind ModelInfo.notice))
          else []),
       normalizeNotices (noticeOfOpt (model.bind ModelInfo.notice))⟩ :=
  prepareNotices_core _ _ _

theorem prepareNotices010_eq (model : Option ModelInfo) (options : GenOptions) :
    prepareNotices010 model options =
      ⟨normalizeNotices options.notice ++
         (if options.inlineModelNotice.getD
              (match model with
               | some m => decide (m.mtype ≠ "huggingface")
               | none => true) then
            normalizeNotices (noticeOfOpt (model.bind ModelInfo.notice))
          else []),
       normalizeNotices (noticeOfOpt (model.bind ModelInfo.notice))⟩ :=
  prepareNotices_core _ _ _

/-- Claim C9 (counterexample): the notice composer does **not**
deduplicate.  When the caller-supplied notice equals the static notice
of the resolved model (here `local/aakarsh`), the identical text appears
twice among the inlined notices and twice in the composed content. -/
theorem noticeComposer_repeats_identical_text :
    (prepareNotices009 (lookupModel AVAILABLE_MODELS_009 "local/aakarsh")
        { notice := NoticeVal.str
            "Enhanced NLP + neural mesh routing. Entirely local and deterministic." }).inline
      = ["Enhanced NLP + neural mesh routing. Entirely local and deterministic.",
         "Enhanced NLP + neural mesh routing. Entirely local and deterministic."] ∧
    composeContent "hello"
        (prepareNotices009 (lookupModel AVAILABLE_MODELS_009 "local/aakarsh")
          { notice := NoticeVal.str
              "Enhanced NLP + neural mesh routing. Entirely local and deterministic." }).inline
      = "Enhanced NLP + neural mesh routing. Entirely local and deterministic.\n\nEnhanced NLP + neural mesh routing. Entirely local and deterministic.\n\nhello" := by
  constructor <;> decide

/-- Claim C9 (amended): in both variants, `prepareNotices` concatenates
the caller-supplied notices first and the resolved model's static notice
after them (when inlining it is enabled; the `extra` field always
carries the static notice), and performs no deduplication — identical
text may repeat.  Dynamic fallback notices reach the composer as
caller-supplied `options.notice` at the fallback call sites. -/
theorem noticeComposer_order (model : Option ModelInfo) (options : GenOptions) :
    ((prepareNotices009 model options).inline
        = normalizeNotices options.notice ++
            (if options.inlineModelNotice.getD true then
               normalizeNotices (noticeOfOpt (model.bind ModelInfo.notice))
             else []) ∧
      (prepareNotices009 model options).extra
        = normalizeNotices (noticeOfOpt (model.bind ModelInfo.notice))) ∧
    ((prepareNotices010 model options).inline
        = normalizeNotices options.notice ++
            (if options.inlineModelNotice.getD
                 (match model with
                  | some m => decide (m.mtype ≠ "huggingface")
                  | none => true) then
               normalizeNotices (noticeOfOpt (model.bind ModelInfo.notice))
             else []) ∧
      (prepareNotices010 model options).extra
        = normalizeNotices (noticeOfOpt (model.bind ModelInfo.notice))) := by
  refine ⟨⟨?_, ?_⟩, ⟨?_, ?_⟩⟩
  · rw [prepareNotices009_eq]
  · rw [prepareNotices009_eq]
  · rw [prepareNotices010_eq]
  · rw [prepareNotices010_eq]

/-! ### Containment helpers -/

theorem charsStartWith_self : ∀ l : List Char, charsStartWith l l = true := by
  intro l
  induction l with
  | nil => rfl
  | cons c cs ih => simp [charsStartWith, ih]

theorem strIncludes_self (s : String) : strIncludes s s = true := by
  unfold strIncludes
  cases h : s.data with
  | nil => simp [charsContain]
  | cons c cs =>
    have := charsStartWith_self (c :: cs)
    simp [charsContain, this]

theorem strIncludes_sandwich (a b c : String) :
    strIncludes (a ++ b ++ c) b = true := by
  apply strIncludes_append_left
  apply strIncludes_append_right
  exact strIncludes_self b

/-! ### Safety-filter characterization -/

theorem runLocalSafetyChecks_spec (v : JSVal) (reason : String)
    (h : (runLocalSafetyChecks v).reason = some reason) :
    (runLocalSafetyChecks v).blocked = true ∧
    (runLocalSafetyChecks v).message = some (safetyMessage reason) := by
  cases v with
  | str s =>
    unfold runLocalSafetyChecks at h ⊢
    by_cases hs : s = ""
    · simp [hs] at h
    · simp only [if_neg hs] at h ⊢
      rcases hf : LOCAL_SAFETY_RULES.find? (ruleMatches s) with _ | r
      · simp [hf] at h
      · simp only [hf] at h ⊢
        simp only [Option.some.injEq] at h
        subst h
        simp
  | num n => simp [runLocalSafetyChecks] at h
  | jsBool b => simp [runLocalSafetyChecks] at h
  | null => simp [runLocalSafetyChecks] at h
  | undef => simp [runLocalSafetyChecks] at h
  | obj => simp [runLocalSafetyChecks] at h

/-! ### Monadic reduction helpers -/

theorem except_bind_ok {E A B : Type} (a : A) (f : A → Except E B) :
    (Except.ok a : Except E A) >>= f = f a := rfl

theorem except_pure_eq {E A : Type} (a : A) :
    (pure a : Except E A) = Except.ok a := rfl

/-! ### Totality and shape of the local generators -/

theorem generateWithLocalModel010_str (tinyG : JSVal → String)
    (s : String) (modelId : String) (options : GenOptions) :
    ∃ r, generateWithLocalModel010 tinyG (.str s) modelId options = .ok r ∧
      r.model = resolveLocal010 modelId :=
  ⟨_, rfl, rfl⟩

theorem resolveLocal009_idem (modelId : String) :
    resolveLocal009 (resolveLocal009 modelId) = resolveLocal009 modelId := by
  rcases h : lookupModel AVAILABLE_MODELS_009 modelId with _ | m
  · have hd : resolveLocal009 modelId = defaultModel009 := by
      unfold resolveLocal009; rw [h]
    rw [hd]; decide
  · by_cases hm : m.mtype = "local"
    · have hd : resolveLocal009 modelId = modelId := by
        unfold resolveLocal009; rw [h]; simp [hm]
      rw [hd]; exact hd
    · have hd : resolveLocal009 modelId = defaultModel009 := by
        unfold resolveLocal009; rw [h]; simp [hm]
      rw [hd]; decide


theorem ite_ok {E A : Type} {c : Prop} [Decidable c] {x y : Except E A}
    (hx : ∃ a, x = .ok a) (hy : ∃ a, y = .ok a) :
    ∃ a, (if c then x else y) = .ok a := by
  by_cases h : c
  · simpa [h] using hx
  · simpa [h] using hy

theorem localChain2_009_ok (r1 : Option String) (lp ps s : String) :
    ∃ t, localChain2_009 r1 lp ps (.str s) = .ok t :=
  ite_ok ⟨_, rfl⟩ (ite_ok ⟨_, rfl⟩ (ite_ok ⟨_, rfl⟩ (ite_ok ⟨_, rfl⟩ (ite_ok ⟨_, rfl⟩
    (ite_ok ⟨_, rfl⟩ (ite_ok ⟨_, rfl⟩ (ite_ok ⟨_, rfl⟩ (ite_ok ⟨_, rfl⟩ (ite_ok ⟨_, rfl⟩
      (ite_ok ⟨_, rfl⟩ ⟨_, rfl⟩))))))))))

theorem generateWithLocalModel009_str
    (nlpA : String → Option NlpAnalysis) (aG asG : String → NlpAnalysis → String)
    (s : String) (modelId : String) (options : GenOptions) :
    ∃ r, generateWithLocalModel009 nlpA aG asG (.str s) modelId options = .ok r ∧
      r.model = resolveLocal009 modelId := by
  have hsplit : generateWithLocalModel009 nlpA aG asG (.str s) modelId options
      = if (runLocalSafetyChecks (JSVal.str s)).blocked then
          pure (localResult009 modelId options
            (((runLocalSafetyChecks (JSVal.str s)).message.getD "") ++ "\n\n" ++
              (if resolveLocal009 modelId = "local/aakarsh" then buildAakarshProductSheet
               else buildLocalAssistantProductSheet)))
        else
          localChain2_009 (localChain1_009 aG asG (resolveLocal009 modelId) (jsToLower s) s
              (if (JSVal.str s).truthy && jsTrim s ≠ "" then nlpA s else none))
            (jsToLower s) s (JSVal.str s) >>= fun response2 =>
            pure (localResult009 modelId options response2) := rfl
  rw [hsplit]
  by_cases hb : (runLocalSafetyChecks (JSVal.str s)).blocked = true
  · rw [if_pos hb]
    exact ⟨_, rfl, rfl⟩
  · rw [if_neg hb]
    obtain ⟨t, ht⟩ := localChain2_009_ok
      (localChain1_009 aG asG (resolveLocal009 modelId) (jsToLower s) s
        (if (JSVal.str s).truthy && jsTrim s ≠ "" then nlpA s else none))
      (jsToLower s) s s
    rw [ht, except_bind_ok]
    exact ⟨_, rfl, rfl⟩

theorem generateLocalChatResponse009_ok
    (nlpA : String → Option NlpAnalysis) (aG asG : String → NlpAnalysis → String)
    (messages : List RawMessage) (modelId : String) (options : GenOptions) :
    ∃ r, generateLocalChatResponse009 nlpA aG asG messages modelId options = .ok r ∧
      r.model = resolveLocal009 modelId := by
  unfold generateLocalChatResponse009
  rcases hm : (lastUserIndex009 (safeChatMessages messages)).bind
      (fun i => (safeChatMessages messages).get? i) with _ | lu
  · simp only [hm]
    obtain ⟨r, hr, hmod⟩ :=
      generateWithLocalModel009_str nlpA aG asG "" (resolveLocal009 modelId) options
    exact ⟨r, hr, by rw [hmod, resolveLocal009_idem]⟩
  · simp only [hm]
    by_cases ht : jsTrim lu.content = ""
    · rw [if_pos ht]
      obtain ⟨r, hr, hmod⟩ :=
        generateWithLocalModel009_str nlpA aG asG "" (resolveLocal009 modelId) options
      exact ⟨r, hr, by rw [hmod, resolveLocal009_idem]⟩
    · rw [if_neg ht]
      exact ⟨_, rfl, rfl⟩

/-! ### Claim C1 -/

set_option maxRecDepth 10000 in
/-- Claim C1 (counterexample): `generateStream` does **not** resolve an
unknown `requestedModelId` to the default RuleBased model: it emits a
single `Model not found` chunk, which the default model's stream never
emits for the same input. -/
theorem unknownModel_stream_counterexample :
    lookupModel AVAILABLE_MODELS_009 "nonexistent/model" = none ∧
    streamContentsOf (generateStream009 {} {} noNlp constGen constGen
        (.inl "hello") "nonexistent/model" {}) = ["Model not found"] ∧
    streamContentsOf (generateStream009 {} {} noNlp constGen constGen
        (.inl "hello") defaultModel009 {}) ≠ ["Model not found"] := by
  refine ⟨rfl, rfl, ?_⟩
  decide

/-- Claim C1 (amended): for every `requestedModelId` absent from the
catalog, `generateText` (both variants) and `chat` resolve the request
to the registered default model — which has type `local`, the
RuleBased provider kind — and return a result without raising, whose
`model` field is that registered default; `generateStream`, by
contrast, emits a single `Model not found` chunk and never dispatches. -/
theorem unknownModel_resolves_to_default (B : Backends) (SB : StreamBackends)
    (nlpA : String → Option NlpAnalysis) (aG asG : String → NlpAnalysis → String)
    (tinyG : JSVal → String) (messages : List RawMessage)
    (prompt : String) (modelId : String) (options : GenOptions)
    (h9 : lookupModel AVAILABLE_MODELS_009 modelId = none)
    (h10 : lookupModel AVAILABLE_MODELS_010 modelId = none) :
    (∃ r, generateText009 B nlpA aG asG prompt modelId options = .ok r ∧
       r.model = defaultModel009 ∧
       ((lookupModel AVAILABLE_MODELS_009 r.model).getD undefinedModel).mtype = "local") ∧
    (∃ r, generateText010 B tinyG prompt modelId options = .ok r ∧
       r.model = defaultModel010 ∧
       ((lookupModel AVAILABLE_MODELS_010 r.model).getD undefinedModel).mtype = "local") ∧
    (∃ c, chat009 B nlpA aG asG messages modelId options = .ok c ∧
       c.model = defaultModel009) ∧
    generateStream009 B SB nlpA aG asG (.inr messages) modelId options
      = .ok [⟨"Model not found"⟩] := by
  have hres9 : resolveModel009 modelId = defaultModel009 := by
    unfold resolveModel009; rw [h9]; rfl
  have hres10 : resolveModel010 modelId = defaultModel010 := by
    unfold resolveModel010; rw [h10]; rfl
  refine ⟨?_, ?_, ?_, ?_⟩
  · have heq : generateText009 B nlpA aG asG prompt modelId options
        = generateWithLocalModel009 nlpA aG asG (.str prompt) defaultModel009
            { requestedModel := some modelId, notice := options.notice } := by
      unfold generateText009; rw [hres9]; exact rfl
    obtain ⟨r, hr, hmod⟩ := generateWithLocalModel009_str nlpA aG asG prompt
      defaultModel009 { requestedModel := some modelId, notice := options.notice }
    refine ⟨r, heq ▸ hr, ?_, ?_⟩
    · rw [hmod]; decide
    · rw [hmod]; decide
  · have heq : generateText010 B tinyG prompt modelId options
        = generateWithLocalModel010 tinyG (.str prompt) defaultModel010
            { requestedModel := some modelId, notice := options.notice } := by
      unfold generateText010; rw [hres10]; exact rfl
    obtain ⟨r, hr, hmod⟩ := generateWithLocalModel010_str tinyG prompt
      defaultModel010 { requestedModel := some modelId, notice := options.notice }
    refine ⟨r, heq ▸ hr, ?_, ?_⟩
    · rw [hmod]; decide
    · rw [hmod]; decide
  · have heq : chat009 B nlpA aG asG messages modelId options
        = generateLocalChatResponse009 nlpA aG asG messages defaultModel009 options >>=
            fun r => pure { message := r.text, model := r.model, modelInfo := r.modelInfo,
                            loading := some r.loading, notices := r.notices } := by
      unfold chat009; rw [hres9]; exact rfl
    obtain ⟨r, hr, hmod⟩ :=
      generateLocalChatResponse009_ok nlpA aG asG messages defaultModel009 options
    refine ⟨{ message := r.text, model := r.model, modelInfo := r.modelInfo,
              loading := some r.loading, notices := r.notices }, ?_, ?_⟩
    · rw [heq, hr, except_bind_ok]
      exact rfl
    · show r.model = defaultModel009
      rw [hmod]; decide
  · unfold generateStream009
    simp only [h9]

theorem unknownModel_resolves_to_default_witness :
    generateStream009 {} {} noNlp constGen constGen
        (.inr [⟨"user", .str "hi"⟩]) "nonexistent/model" {}
      = .ok [⟨"Model not found"⟩] :=
  (unknownModel_resolves_to_default {} {} noNlp constGen constGen tinyGenConst
    [⟨"user", .str "hi"⟩] "hi" "nonexistent/model" {} rfl rfl).2.2.2

/-! ### Claim C2 -/

/-- Claim C2 (counterexample): the OpenAI cloud chat backend does not
return an auth-failure **result** — `chatWithOpenAI` and
`generateWithOpenAI` rethrow the 401 error unchanged, so no result
names the requested model (the fallback adapter is not invoked either,
as neither function can reach one). -/
theorem openai_auth_rethrow_counterexample :
    chatWithOpenAI AVAILABLE_MODELS_010 prepareNotices010
        (some (fun _ => .error authErr401)) [⟨"user", .str "hello"⟩] "gpt-3.5-turbo" {}
      = .error authErr401 ∧
    generateWithOpenAI AVAILABLE_MODELS_010 prepareNotices010
        (some (fun _ => .error authErr401)) "hello" "gpt-3.5-turbo" {}
      = .error authErr401 :=
  ⟨rfl, rfl⟩

/-- Claim C2 (amended): for the Hugging Face backend the claim holds —
on a 401/403 both error handlers return a result that carries the
auth-failure message and the originally requested model id, and the
RuleBased fallback is not invoked (the outcome is independent of the
fallback function); the OpenAI backend instead rethrows the error
without producing a result. -/
theorem hf_auth_error_not_downgraded
    (fb fb' : String → GenOptions → Except JsError GenerationResult)
    (fbChat fbChat' : List RawMessage → GenOptions → Except JsError GenerationResult)
    (prompt requestedModel : String) (messages : List RawMessage)
    (e : JsError) (r : ErrResponse)
    (hr : e.response = some r) (hs : r.status = 401 ∨ r.status = 403) :
    handleHuggingFaceTextError fb e prompt requestedModel
      = handleHuggingFaceTextError fb' e prompt requestedModel ∧
    (∃ res, handleHuggingFaceTextError fb e prompt requestedModel = .ok res ∧
      res.model = requestedModel ∧
      strIncludes res.text "Authentication failed for the Hugging Face router" = true) ∧
    handleHuggingFaceChatError fbChat e messages requestedModel
      = handleHuggingFaceChatError fbChat' e messages requestedModel ∧
    (∃ res, handleHuggingFaceChatError fbChat e messages requestedModel = .ok res ∧
      res.model = requestedModel ∧
      strIncludes res.message "Authentication failed for the Hugging Face router" = true) := by
  have h503 : ¬ r.status = 503 := by rcases hs with h | h <;> omega
  have h429 : ¬ r.status = 429 := by rcases hs with h | h <;> omega
  have htext : ∀ g : String → GenOptions → Except JsError GenerationResult,
      handleHuggingFaceTextError g e prompt requestedModel
        = .ok { text := (match firstTruthy [r.data.errorMessage, r.data.message, r.data.detail] with
                  | some m => "Authentication failed for the Hugging Face router: " ++ m ++ ". Please double-check the HUGGINGFACE_API_KEY value."
                  | none => "Authentication failed for the Hugging Face router. Please double-check the HUGGINGFACE_API_KEY value."),
                model := requestedModel,
                modelInfo := lookupModel AVAILABLE_MODELS_010 requestedModel,
                loading := false,
                notices := normalizeNotices (noticeOfOpt ((lookupModel AVAILABLE_MODELS_010 requestedModel).bind ModelInfo.notice)) } := by
    intro g
    unfold handleHuggingFaceTextError
    rw [hr]
    simp only [if_neg h503, if_neg h429, if_pos hs]
  have c1 : ¬ (e.response.map (fun x => x.status) = some 503) := by
    rw [hr]
    simpa using h503
  have c2 : ¬ (e.response.map (fun x => x.status) = some 429) := by
    rw [hr]
    simpa using h429
  have c3 : e.response.map (fun x => x.status) = some 401 ∨
      e.response.map (fun x => x.status) = some 403 := by
    rw [hr]
    rcases hs with h | h
    · exact Or.inl (by simp [h])
    · exact Or.inr (by simp [h])
  have hchat : ∀ g : List RawMessage → GenOptions → Except JsError GenerationResult,
      handleHuggingFaceChatError g e messages requestedModel
        = .ok { message := (match firstTruthy [e.response.bind (fun r => r.data.errorMessage),
                    e.response.bind (fun r => r.data.message), some e.message] with
                  | some m => "Authentication failed for the Hugging Face router: " ++ m ++ ". Please double-check the HUGGINGFACE_API_KEY value."
                  | none => "Authentication failed for the Hugging Face router. Please double-check the HUGGINGFACE_API_KEY value."),
                model := requestedModel,
                modelInfo := lookupModel AVAILABLE_MODELS_010 requestedModel,
                loading := some false,
                notices := normalizeNotices (noticeOfOpt ((lookupModel AVAILABLE_MODELS_010 requestedModel).bind ModelInfo.notice)) } := by
    intro g
    unfold handleHuggingFaceChatError
    simp only [if_neg c1, if_neg c2, if_pos c3]
  refine ⟨by rw [htext fb, htext fb'], ⟨_, htext fb, rfl, ?_⟩,
    by rw [hchat fbChat, hchat fbChat'], ⟨_, hchat fbChat, rfl, ?_⟩⟩
  · rcases hm : firstTruthy [r.data.errorMessage, r.data.message, r.data.detail] with _ | m
    · simp only [hm]
      decide
    · simp only [hm]
      apply strIncludes_append_left
      apply strIncludes_append_left
      decide
  · rcases hm : firstTruthy [e.response.bind (fun r => r.data.errorMessage),
        e.response.bind (fun r => r.data.message), some e.message] with _ | m
    · simp only [hm]
      decide
    · simp only [hm]
      apply strIncludes_append_left
      apply strIncludes_append_left
      decide

theorem hf_auth_error_not_downgraded_witness :
    handleHuggingFaceTextError fbProbe authErr401 "orig"
        "huggingface/meta-llama-3.1-8b-instruct"
      = handleHuggingFaceTextError (fun _ _ => .error { message := "never" })
          authErr401 "orig" "huggingface/meta-llama-3.1-8b-instruct" :=
  (hf_auth_error_not_downgraded fbProbe (fun _ _ => .error { message := "never" })
    fbChatProbe fbChatProbe "orig" "huggingface/meta-llama-3.1-8b-instruct" []
    authErr401 { status := 401 } rfl (Or.inl rfl)).1

/-! ### Claim C3 -/

/-- Claim C3 (counterexample): a 429 rate-limit failure of the Hugging
Face text backend does **not** trigger a retry against the RuleBased
adapter — the handler returns a canned message, independent of both the
fallback function and the original prompt; and an OpenAI connection
failure is rethrown with no fallback at all. -/
theorem nonAuthFailure_counterexample :
    handleHuggingFaceTextError fbProbe rateErr429 "original prompt"
        "huggingface/meta-llama-3.1-8b-instruct"
      = handleHuggingFaceTextError (fun _ _ => .error { message := "never" })
          rateErr429 "a different prompt" "huggingface/meta-llama-3.1-8b-instruct" ∧
    genTextOf (handleHuggingFaceTextError fbProbe rateErr429 "original prompt"
        "huggingface/meta-llama-3.1-8b-instruct")
      = "Rate limit reached for the selected Hugging Face model. Using the built-in assistant instead." ∧
    chatWithOpenAI AVAILABLE_MODELS_010 prepareNotices010
        (some (fun _ => .error connRefusedErr)) [⟨"user", .str "hello"⟩]
        "gpt-3.5-turbo" {}
      = .error connRefusedErr :=
  ⟨rfl, rfl, rfl⟩

/-- Claim C3 (amended): the single-retry-with-original-prompt policy
holds for Hugging Face status 410, status 400 with a server message,
and response-less failures, and for Ollama failures (with a notice
naming the daemon base URL on ECONNREFUSED); but 503 and 429 return
canned results without invoking the fallback, and OpenAI failures are
rethrown without any fallback. -/
theorem nonAuthFailure_fallback_policy
    (fb : String → GenOptions → Except JsError GenerationResult)
    (prompt modelId : String) (options : GenOptions) :
    (∀ (e : JsError) (r : ErrResponse), e.response = some r → r.status = 410 →
      handleHuggingFaceTextError fb e prompt modelId
        = fb prompt { requestedModel := some modelId, notice := .str "The selected Hugging Face model endpoint returned 410 (gone). Using the built-in assistant instead." }) ∧
    (∀ (e : JsError) (r : ErrResponse) (m : String), e.response = some r →
      r.status = 400 →
      firstTruthy [r.data.errorMessage, r.data.message, r.data.detail] = some m →
      handleHuggingFaceTextError fb e prompt modelId
        = fb prompt { requestedModel := some modelId, notice := .str ("Hugging Face router rejected the request: " ++ m ++ ". Using the built-in assistant instead.") }) ∧
    (∀ (e : JsError), e.response = none → ¬ e.message = "" →
      handleHuggingFaceTextError fb e prompt modelId
        = fb prompt { requestedModel := some modelId, notice := .str ("Remote generation failed: " ++ e.message ++ ". Using the built-in assistant instead.") }) ∧
    (∀ (e : JsError) (r : ErrResponse), e.response = some r → r.status = 503 →
      handleHuggingFaceTextError fb e prompt modelId
        = .ok { text := "Model is currently loading. This can take 20-30 seconds for the first request. Please try again in a moment...\n\nFalling back to the built-in assistant for now.",
                model := defaultModel010,
                modelInfo := lookupModel AVAILABLE_MODELS_010 defaultModel010,
                loading := true,
                notices := normalizeNotices (noticeOfOpt ((lookupModel AVAILABLE_MODELS_010 modelId).bind ModelInfo.notice)) }) ∧
    (∀ (e : JsError) (r : ErrResponse), e.response = some r → r.status = 429 →
      handleHuggingFaceTextError fb e prompt modelId
        = .ok { text := "Rate limit reached for the selected Hugging Face model. Using the built-in assistant instead.",
                model := defaultModel010,
                modelInfo := lookupModel AVAILABLE_MODELS_010 defaultModel010,
                loading := false,
                notices := normalizeNotices (noticeOfOpt ((lookupModel AVAILABLE_MODELS_010 modelId).bind ModelInfo.notice)) }) ∧
    (∀ (models : List (String × ModelInfo))
        (prepare : Option ModelInfo → GenOptions → PreparedNotices)
        (oHttp : String → String → Except JsError String)
        (m : ModelInfo) (e : JsError),
      lookupModel models modelId = some m →
      oHttp (stripTrailingSlash (m.endpoint.getD OLLAMA_HOST) ++ "/api/generate") prompt
        = .error e →
      e.code = some "ECONNREFUSED" →
      generateWithOllama models prepare fb oHttp prompt modelId options
        = fb prompt { requestedModel := some modelId, notice := .str ("Could not reach Ollama at " ++ stripTrailingSlash (m.endpoint.getD OLLAMA_HOST) ++
              ". Ensure the Ollama service is running and the model is pulled. Using built-in assistant instead.") } ∧
      strIncludes ("Could not reach Ollama at " ++ stripTrailingSlash (m.endpoint.getD OLLAMA_HOST) ++
          ". Ensure the Ollama service is running and the model is pulled. Using built-in assistant instead.")
        (stripTrailingSlash (m.endpoint.getD OLLAMA_HOST)) = true) ∧
    (∀ (call : List RawMessage → Except JsError String) (e : JsError),
      call [⟨"user", .str prompt⟩] = .error e →
      generateWithOpenAI AVAILABLE_MODELS_010 prepareNotices010 (some call)
          prompt modelId options = .error e) ∧
    (∀ (call : List RawMessage → Except JsError String)
        (msgs : List RawMessage) (e : JsError),
      call msgs = .error e →
      chatWithOpenAI AVAILABLE_MODELS_010 prepareNotices010 (some call)
          msgs modelId options = .error e) := by
  refine ⟨?_, ?_, ?_, ?_, ?_, ?_, ?_, ?_⟩
  · intro e r he h410
    have h1 : ¬ r.status = 503 := by omega
    have h2 : ¬ r.status = 429 := by omega
    have h3 : ¬ (r.status = 401 ∨ r.status = 403) := by
      rw [h410]
      decide
    unfold handleHuggingFaceTextError
    rw [he]
    simp only [if_neg h1, if_neg h2, if_neg h3, if_pos h410]
  · intro e r m he h400 hmsg
    have h1 : ¬ r.status = 503 := by omega
    have h2 : ¬ r.status = 429 := by omega
    have h3 : ¬ (r.status = 401 ∨ r.status = 403) := by
      rw [h400]
      decide
    have h4 : ¬ r.status = 410 := by omega
    unfold handleHuggingFaceTextError
    rw [he]
    simp only [if_neg h1, if_neg h2, if_neg h3, if_neg h4, if_pos h400, hmsg]
  · intro e he hmsg
    have hd : firstTruthy [Option.bind (α := ErrResponse) none (fun r => r.data.errorMessage),
        some e.message] = some e.message := by
      simp [firstTruthy, hmsg]
    unfold handleHuggingFaceTextError
    rw [he]
    simp only [Option.bind_none, firstTruthy, if_neg hmsg]
    exact rfl
  · intro e r he h503
    unfold handleHuggingFaceTextError
    rw [he]
    simp only [if_pos h503]
  · intro e r he h429
    have h1 : ¬ r.status = 503 := by omega
    unfold handleHuggingFaceTextError
    rw [he]
    simp only [if_neg h1, if_pos h429]
  · intro models prepare oHttp m e hm hcall hcode
    constructor
    · simp only [generateWithOllama, hm, hcall, if_pos hcode]
    · exact strIncludes_sandwich _ _ _
  · intro call e hc
    simp only [generateWithOpenAI, hc]
  · intro call msgs e hc
    simp only [chatWithOpenAI, hc]

theorem nonAuthFailure_fallback_policy_witness :
    handleHuggingFaceTextError fbProbe goneErr410 "orig"
        "huggingface/meta-llama-3.1-8b-instruct"
      = fbProbe "orig" { requestedModel := some "huggingface/meta-llama-3.1-8b-instruct", notice := .str "The selected Hugging Face model endpoint returned 410 (gone). Using the built-in assistant instead." } :=
  (nonAuthFailure_fallback_policy fbProbe "orig"
    "huggingface/meta-llama-3.1-8b-instruct" {}).1 goneErr410 { status := 410 } rfl rfl

/-! ### Claim C5 -/

/-- Claim C5 (counterexample): the RuleBased adapter **does** raise for
non-string garbage — `(prompt || \x27\x27).toLowerCase()` throws a
TypeError for a truthy non-string in both variants, and in the first
variant the `prompt.length` test throws for `null`. -/
theorem ruleBased_nonString_raises_counterexample :
    generateWithLocalModel009 noNlp constGen constGen (.num 42) "local/aakarsh" {}
      = .error { message := "TypeError: prompt.toLowerCase is not a function" } ∧
    generateWithLocalModel010 tinyGenConst (.num 42) "local/instruct" {}
      = .error { message := "TypeError: prompt.toLowerCase is not a function" } ∧
    generateWithLocalModel009 noNlp constGen constGen .null "local/aakarsh" {}
      = .error { message := "TypeError: Cannot read properties of null (reading \x27length\x27)" } :=
  ⟨rfl, rfl, rfl⟩

/-- Claim C5 (amended): the RuleBased adapter is total on every
*string* prompt — including the empty and whitespace-only strings — in
both variants, on the `undefined` prompt (replaced by the default
parameter), and on any message list through the chat-side entry
point. -/
theorem ruleBased_total_on_strings
    (nlpA : String → Option NlpAnalysis) (aG asG : String → NlpAnalysis → String)
    (tinyG : JSVal → String) (s modelId : String) (messages : List RawMessage)
    (options : GenOptions) :
    exceptIsOk (generateWithLocalModel009 nlpA aG asG (.str s) modelId options) = true ∧
    exceptIsOk (generateWithLocalModel010 tinyG (.str s) modelId options) = true ∧
    exceptIsOk (generateWithLocalModel009 nlpA aG asG .undef modelId options) = true ∧
    exceptIsOk (generateWithLocalModel010 tinyG .undef modelId options) = true ∧
    exceptIsOk (generateLocalChatResponse009 nlpA aG asG messages modelId options) = true := by
  obtain ⟨r1, h1, -⟩ := generateWithLocalModel009_str nlpA aG asG s modelId options
  obtain ⟨r2, h2, -⟩ := generateWithLocalModel010_str tinyG s modelId options
  obtain ⟨r3, h3, -⟩ := generateWithLocalModel009_str nlpA aG asG "" modelId options
  obtain ⟨r4, h4, -⟩ := generateWithLocalModel010_str tinyG "" modelId options
  obtain ⟨r5, h5, -⟩ := generateLocalChatResponse009_ok nlpA aG asG messages modelId options
  have hu9 : generateWithLocalModel009 nlpA aG asG .undef modelId options
      = generateWithLocalModel009 nlpA aG asG (.str "") modelId options := rfl
  have hu10 : generateWithLocalModel010 tinyG .undef modelId options
      = generateWithLocalModel010 tinyG (.str "") modelId options := rfl
  refine ⟨?_, ?_, ?_, ?_, ?_⟩
  · rw [h1]
    rfl
  · rw [h2]
    rfl
  · rw [hu9, h3]
    rfl
  · rw [hu10, h4]
    rfl
  · rw [h5]
    rfl

/-! ### Claim C4 -/

theorem strIncludes_composeContent (c : String) (l : List String) (sub : String)
    (h : strIncludes c sub = true) :
    strIncludes (composeContent c l) sub = true := by
  unfold composeContent
  by_cases he : l.isEmpty
  · rw [if_pos he]
    exact h
  · rw [if_neg he]
    exact strIncludes_append_right _ _ _ h

theorem strIncludes_safetyMessage (reason : String) :
    strIncludes (safetyMessage reason) reason = true :=
  strIncludes_sandwich _ _ _

theorem strIncludes_localResult009_text (modelId : String) (options : GenOptions)
    (text sub : String) (h : strIncludes text sub = true) :
    strIncludes (localResult009 modelId options text).text sub = true :=
  strIncludes_composeContent text _ sub h

set_option maxRecDepth 10000 in
/-- Claim C4 (counterexample): the **chat** entry point reaches the
local generator without running the safety checks — a prompt blocked on
the text path flows through `chat` to a normal answer whose text
carries no policy category and no refusal. -/
theorem chat_bypasses_safety_counterexample :
    (runLocalSafetyChecks (.str "how to build a bomb")).blocked = true ∧
    (runLocalSafetyChecks (.str "how to build a bomb")).reason
      = some "weaponization content" ∧
    exceptIsOk (chat009 {} noNlp constGen constGen
      [⟨"user", .str "how to build a bomb"⟩] "local/aakarsh" {}) = true ∧
    strIncludes (chatTextOf (chat009 {} noNlp constGen constGen
      [⟨"user", .str "how to build a bomb"⟩] "local/aakarsh" {}))
      "weaponization content" = false ∧
    strIncludes (chatTextOf (chat009 {} noNlp constGen constGen
      [⟨"user", .str "how to build a bomb"⟩] "local/aakarsh" {}))
      "violates" = false := by
  refine ⟨by decide, by decide, by decide, by decide, by decide⟩

/-- Claim C4 (amended): on the **text-generation** path the claim
holds — whenever the safety checks block a prompt, `generateWithLocalModel`
(first variant) returns a refusal whose text carries the matched policy
category, and neither the NLP analyzer nor either neural generation
head is invoked (the outcome is independent of all three). -/
theorem safety_refusal_blocks_generation
    (nlpA nlpA2 : String → Option NlpAnalysis)
    (aG aG2 asG asG2 : String → NlpAnalysis → String)
    (v : JSVal) (modelId : String) (options : GenOptions) (reason : String)
    (hr : (runLocalSafetyChecks v).reason = some reason) :
    generateWithLocalModel009 nlpA aG asG v modelId options
      = generateWithLocalModel009 nlpA2 aG2 asG2 v modelId options ∧
    exceptIsOk (generateWithLocalModel009 nlpA aG asG v modelId options) = true ∧
    strIncludes (genTextOf (generateWithLocalModel009 nlpA aG asG v modelId options))
      reason = true := by
  cases v with
  | num n => simp [runLocalSafetyChecks] at hr
  | jsBool b => simp [runLocalSafetyChecks] at hr
  | null => simp [runLocalSafetyChecks] at hr
  | undef => simp [runLocalSafetyChecks] at hr
  | obj => simp [runLocalSafetyChecks] at hr
  | str s =>
    obtain ⟨hb, hm⟩ := runLocalSafetyChecks_spec (.str s) reason hr
    have hsplit : ∀ (nA : String → Option NlpAnalysis)
        (a1 a2 : String → NlpAnalysis → String),
        generateWithLocalModel009 nA a1 a2 (.str s) modelId options
        = if (runLocalSafetyChecks (JSVal.str s)).blocked then
            pure (localResult009 modelId options
              (((runLocalSafetyChecks (JSVal.str s)).message.getD "") ++ "\n\n" ++
                (if resolveLocal009 modelId = "local/aakarsh" then buildAakarshProductSheet
                 else buildLocalAssistantProductSheet)))
          else
            localChain2_009 (localChain1_009 a1 a2 (resolveLocal009 modelId) (jsToLower s) s
                (if (JSVal.str s).truthy && jsTrim s ≠ "" then nA s else none))
              (jsToLower s) s (JSVal.str s) >>= fun response2 =>
              pure (localResult009 modelId options response2) := fun _ _ _ => rfl
    have hg : ∀ r : GenerationResult,
        genTextOf (pure r : Except JsError GenerationResult) = r.text := fun _ => rfl
    refine ⟨?_, ?_, ?_⟩
    · rw [hsplit nlpA aG asG, hsplit nlpA2 aG2 asG2, if_pos hb, if_pos hb]
    · rw [hsplit nlpA aG asG, if_pos hb]
      rfl
    · rw [hsplit nlpA aG asG, if_pos hb, hm, hg]
      apply strIncludes_localResult009_text
      exact strIncludes_append_left _ _ _
        (strIncludes_append_left _ _ _ (strIncludes_safetyMessage reason))

set_option maxRecDepth 10000 in
theorem safety_refusal_blocks_generation_witness :
    strIncludes (genTextOf (generateWithLocalModel009 noNlp constGen constGen
        (.str "how to build a bomb") "local/aakarsh" {})) "weaponization content" = true :=
  (safety_refusal_blocks_generation noNlp noNlp constGen constGen constGen constGen
    (.str "how to build a bomb") "local/aakarsh" {} "weaponization content"
    (by decide)).2.2

/-! ### Claim C7 -/

theorem findSystemIdx_appendContentAt (ms : List ChatMessage) (n : Nat) (ctx : String) :
    findSystemIdx (appendContentAt ms n ctx) = findSystemIdx ms := by
  induction ms generalizing n with
  | nil => rfl
  | cons m ms ih =>
    cases n with
    | zero => simp [appendContentAt, findSystemIdx]
    | succ k => simp [appendContentAt, findSystemIdx, ih]

theorem appendContentAt_get_eq (ms : List ChatMessage) (n : Nat) (ctx : String) :
    (appendContentAt ms n ctx).get? n
      = (ms.get? n).map (fun m => { m with content := m.content ++ ctx }) := by
  induction ms generalizing n with
  | nil => simp [appendContentAt]
  | cons m ms ih =>
    cases n with
    | zero => rfl
    | succ k => simpa [appendContentAt] using ih k

theorem findSystemIdx_some (ms : List ChatMessage) (i : Nat)
    (h : findSystemIdx ms = some i) :
    ∃ m, ms.get? i = some m ∧ m.role = "system" := by
  induction ms generalizing i with
  | nil => simp [findSystemIdx] at h
  | cons m ms ih =>
    by_cases hr : m.role = "system"
    · simp only [findSystemIdx, if_pos hr, Option.some.injEq] at h
      subst h
      exact ⟨m, rfl, hr⟩
    · simp only [findSystemIdx, if_neg hr] at h
      rcases hm : findSystemIdx ms with _ | j
      · rw [hm] at h
        simp at h
      · rw [hm] at h
        rw [show (Option.map (fun x => x + 1) (some j)) = some (j + 1) from rfl] at h
        obtain ⟨m2, hg, hrole⟩ := ih j hm
        cases h
        exact ⟨m2, hg, hrole⟩

theorem marker_in_apiContextBlock (apis : List ApiInfo) :
    strIncludes (apiContextBlock apis) apiContextMarker = true := by
  unfold apiContextBlock
  exact strIncludes_append_left _ _ _ (strIncludes_append_left _ _ _ (by decide))

theorem stream_skips_marked (apis : List ApiInfo) (msgs : List ChatMessage)
    (i : Nat) (m : ChatMessage) (ha : ¬ apis.isEmpty = true)
    (hf : findSystemIdx msgs = some i) (hget : msgs.get? i = some m)
    (hmark : strIncludes m.content apiContextMarker = true) :
    injectApiContextStream apis msgs = msgs := by
  unfold injectApiContextStream
  rw [if_neg ha]
  simp only [hf, hget]
  rw [show ((Option.map ChatMessage.content (some m)).getD "") = m.content from rfl]
  rw [if_pos hmark]

set_option maxRecDepth 100000 in
/-- Claim C7 (counterexample): the `/api/v1/chat` API-context injection
and the stream search injection are **not** idempotent — applying
either twice to a message list with a system message appends the
injected block a second time. -/
theorem inject_twice_duplicates_counterexample :
    injectApiContextChat [⟨"Weather", "w", "http://w"⟩]
        (injectApiContextChat [⟨"Weather", "w", "http://w"⟩]
          [⟨"system", "You are a bot."⟩])
      ≠ injectApiContextChat [⟨"Weather", "w", "http://w"⟩]
          [⟨"system", "You are a bot."⟩] ∧
    injectSearchContext "Weather" [⟨"T", "L", "S"⟩]
        (injectSearchContext "Weather" [⟨"T", "L", "S"⟩]
          [⟨"system", "You are a bot."⟩])
      ≠ injectSearchContext "Weather" [⟨"T", "L", "S"⟩]
          [⟨"system", "You are a bot."⟩] :=
  ⟨by decide, by decide⟩

/-- Claim C7 (amended): of the three injection sites only the stream
endpoint's API-context injection is guarded by the marker check, and
that one **is** idempotent: a second application leaves the message
list unchanged for every API list and every message list. -/
theorem inject_stream_idempotent (apis : List ApiInfo) (messages : List ChatMessage) :
    injectApiContextStream apis (injectApiContextStream apis messages)
      = injectApiContextStream apis messages := by
  by_cases ha : apis.isEmpty
  · unfold injectApiContextStream
    rw [if_pos ha, if_pos ha]
  · rcases hf : findSystemIdx messages with _ | i
    · have h1 : injectApiContextStream apis messages
          = ⟨"system", "You are a helpful AI assistant." ++ apiContextBlock apis⟩
              :: messages := by
        unfold injectApiContextStream
        rw [if_neg ha]
        simp only [hf]
      have h2 : findSystemIdx
          ((⟨"system", "You are a helpful AI assistant." ++ apiContextBlock apis⟩
            : ChatMessage) :: messages) = some 0 := by
        simp [findSystemIdx]
      have h4 : strIncludes ("You are a helpful AI assistant." ++ apiContextBlock apis)
          apiContextMarker = true :=
        strIncludes_append_right _ _ _ (marker_in_apiContextBlock apis)
      rw [h1]
      exact stream_skips_marked apis _ 0 _ ha h2 rfl h4
    · obtain ⟨m, hget, hrole⟩ := findSystemIdx_some messages i hf
      by_cases hmark : strIncludes m.content apiContextMarker = true
      · have h1 : injectApiContextStream apis messages = messages :=
          stream_skips_marked apis messages i m ha hf hget hmark
        rw [h1]
        exact h1
      · have h1 : injectApiContextStream apis messages
            = appendContentAt messages i (apiContextBlock apis) := by
          unfold injectApiContextStream
          rw [if_neg ha]
          simp only [hf, hget]
          rw [show ((Option.map ChatMessage.content (some m)).getD "") = m.content from rfl]
          rw [if_neg hmark]
        have h2 : findSystemIdx (appendContentAt messages i (apiContextBlock apis))
            = some i := by
          rw [findSystemIdx_appendContentAt, hf]
        have h3 : (appendContentAt messages i (apiContextBlock apis)).get? i
            = some { m with content := m.content ++ apiContextBlock apis } := by
          rw [appendContentAt_get_eq, hget]
          rfl
        have h4 : strIncludes (m.content ++ apiContextBlock apis) apiContextMarker
            = true :=
          strIncludes_append_right _ _ _ (marker_in_apiContextBlock apis)
        rw [h1]
        exact stream_skips_marked apis _ i _ ha h2 h3 h4

/-! ### Claim C8 -/

theorem score_foldl (keywords : List String) (input : String) (w init : Nat) :
    keywords.foldl (fun score k => if strIncludes input k then score + w else score) init
      = init + w * (keywords.filter (fun k => strIncludes input k)).length := by
  induction keywords generalizing init with
  | nil => simp
  | cons k ks ih =>
    by_cases hk : strIncludes input k = true
    · rw [List.foldl_cons, if_pos hk, ih, List.filter_cons, if_pos hk,
        List.length_cons, Nat.mul_succ]
      omega
    · rw [List.foldl_cons, if_neg hk, ih, List.filter_cons, if_neg hk]

theorem categoryScore_eq (input : String) (c : IntentCategory) :
    categoryScore input c
      = c.priority * (c.keywords.filter (fun k => strIncludes input k)).length := by
  unfold categoryScore
  rw [score_foldl]
  omega

theorem foldBest_le (l : List (String × Nat)) (init : String × Nat) :
    init.2 ≤ (l.foldl (fun best p => if p.2 > best.2 then p else best) init).2 ∧
    ∀ x ∈ l, x.2 ≤ (l.foldl (fun best p => if p.2 > best.2 then p else best) init).2 := by
  induction l generalizing init with
  | nil => exact ⟨le_refl _, by simp⟩
  | cons p l ih =>
    simp only [List.foldl_cons]
    have hstep : init.2 ≤ (if p.2 > init.2 then p else init).2 := by
      by_cases hp : p.2 > init.2
      · rw [if_pos hp]
        omega
      · rw [if_neg hp]
    have hstep2 : p.2 ≤ (if p.2 > init.2 then p else init).2 := by
      by_cases hp : p.2 > init.2
      · rw [if_pos hp]
      · rw [if_neg hp]
        omega
    obtain ⟨h1, h2⟩ := ih (if p.2 > init.2 then p else init)
    refine ⟨le_trans hstep h1, ?_⟩
    intro x hx
    rcases List.mem_cons.mp hx with hxp | hxl
    · subst hxp
      exact le_trans hstep2 h1
    · exact h2 x hxl

theorem foldBest_mem (l : List (String × Nat)) (init : String × Nat) :
    l.foldl (fun best p => if p.2 > best.2 then p else best) init = init ∨
    ∃ l1 l2, l = l1 ++ (l.foldl (fun best p => if p.2 > best.2 then p else best) init) :: l2 ∧
      init.2 < (l.foldl (fun best p => if p.2 > best.2 then p else best) init).2 ∧
      ∀ x ∈ l1, x.2 < (l.foldl (fun best p => if p.2 > best.2 then p else best) init).2 := by
  induction l generalizing init with
  | nil => left; rfl
  | cons p l ih =>
    simp only [List.foldl_cons]
    by_cases hp : p.2 > init.2
    · rw [if_pos hp]
      rcases ih p with h | ⟨l1, l2, heq, hlt, hall⟩
      · right
        refine ⟨[], l, ?_, ?_, by simp⟩
        · rw [h]
          rfl
        · rw [h]
          exact hp
      · right
        refine ⟨p :: l1, l2, ?_, lt_trans hp hlt, ?_⟩
        · conv_lhs => rw [heq]
          rfl
        · intro x hx
          rcases List.mem_cons.mp hx with hxp | hxl
          · subst hxp
            exact hlt
          · exact hall x hxl
    · rw [if_neg hp]
      rcases ih init with h | ⟨l1, l2, heq, hlt, hall⟩
      · left
        exact h
      · right
        refine ⟨p :: l1, l2, ?_, hlt, ?_⟩
        · conv_lhs => rw [heq]
          rfl
        · intro x hx
          rcases List.mem_cons.mp hx with hxp | hxl
          · have hple : p.2 ≤ init.2 := by omega
            subst hxp
            exact lt_of_le_of_lt hple hlt
          · exact hall x hxl

theorem pickBestIntent_le (l : List (String × Nat)) :
    ∀ x ∈ l, x.2 ≤ (pickBestIntent l).2 :=
  (foldBest_le l ("CHAT", 0)).2

theorem pickBestIntent_cases (l : List (String × Nat)) :
    pickBestIntent l = ("CHAT", 0) ∨
    ∃ l1 l2, l = l1 ++ pickBestIntent l :: l2 ∧ 0 < (pickBestIntent l).2 ∧
      ∀ x ∈ l1, x.2 < (pickBestIntent l).2 :=
  foldBest_mem l ("CHAT", 0)

/-- Claim C8: intent classification scores each category by its
priority weight times the number of its keywords contained in the
lowered input; every score is bounded by the winner's score; with all
scores zero the generic `CHAT` category is returned; and with a
positive maximum the winner sits in the score list with every
*earlier* category scoring strictly less (declaration-order
tie-breaking). -/
theorem detectIntent_spec (userInput : String) :
    (detectIntent userInput).scores
      = INTENT_CATEGORIES.map (fun p => (p.1,
          p.2.priority * ((p.2.keywords.filter
            (fun k => strIncludes (jsToLower userInput) k)).length))) ∧
    ((∀ q ∈ (detectIntent userInput).scores, q.2 = 0) →
      (detectIntent userInput).intent = "CHAT") ∧
    (∀ q ∈ (detectIntent userInput).scores,
      q.2 ≤ (pickBestIntent ((detectIntent userInput).scores)).2) ∧
    (0 < (pickBestIntent ((detectIntent userInput).scores)).2 →
      ∃ l1 l2, (detectIntent userInput).scores
          = l1 ++ ((detectIntent userInput).intent,
                   (pickBestIntent ((detectIntent userInput).scores)).2) :: l2 ∧
        ∀ x ∈ l1, x.2 < (pickBestIntent ((detectIntent userInput).scores)).2) := by
  have hscores : (detectIntent userInput).scores
      = INTENT_CATEGORIES.map
          (fun p => (p.1, categoryScore (jsToLower userInput) p.2)) := rfl
  have hintent : (detectIntent userInput).intent
      = (pickBestIntent ((detectIntent userInput).scores)).1 := rfl
  refine ⟨?_, ?_, ?_, ?_⟩
  · rw [hscores]
    simp only [categoryScore_eq]
  · intro hq
    rcases pickBestIntent_cases ((detectIntent userInput).scores) with h |
        ⟨l1, l2, heq, hpos, hall⟩
    · rw [hintent, h]
    · have h2 : pickBestIntent ((detectIntent userInput).scores)
          ∈ l1 ++ pickBestIntent ((detectIntent userInput).scores) :: l2 := by
        exact List.mem_append_right l1 (List.mem_cons_self _ _)
      have hmem : pickBestIntent ((detectIntent userInput).scores)
          ∈ (detectIntent userInput).scores :=
        Eq.mpr (congrArg (fun L => pickBestIntent ((detectIntent userInput).scores) ∈ L)
          heq) h2
      have h0 := hq (pickBestIntent ((detectIntent userInput).scores)) hmem
      omega
  · exact pickBestIntent_le _
  · intro hpos
    rcases pickBestIntent_cases ((detectIntent userInput).scores) with h |
        ⟨l1, l2, heq, hpos2, hall⟩
    · rw [h] at hpos
      simp at hpos
    · refine ⟨l1, l2, ?_, hall⟩
      rw [hintent, Prod.mk.eta]
      exact heq

set_option maxRecDepth 10000 in
theorem detectIntent_spec_witness :
    (detectIntent "zzz").intent = "CHAT" :=
  (detectIntent_spec "zzz").2.1 (by decide)

/-! ### Claim C10 -/

/-- Claim C10: intent detection is deterministic — two invocations on
the same input string return the same intent, the same score map and
the same confidence. -/
theorem detectIntent_deterministic (s t : String) (h : s = t) :
    (detectIntent s).intent = (detectIntent t).intent ∧
    (detectIntent s).scores = (detectIntent t).scores ∧
    (detectIntent s).confidence = (detectIntent t).confidence := by
  subst h
  exact ⟨rfl, rfl, rfl⟩

theorem detectIntent_deterministic_witness :
    (detectIntent "deploy docker now").intent
      = (detectIntent "deploy docker now").intent :=
  (detectIntent_deterministic "deploy docker now" "deploy docker now" rfl).1
